import Mathlib

/-!
Shallow embedding of the trust-web3-provider request correlation and
dispatch engine.

Two behaviour variants are embedded:
* `V1` — `src/src/index.js` (the MathWallet variant);
* `V0` — `src/unnamed/part_000` (the Trust variant).

Shared material (JS value model, assoc-list maps mirroring JS `Map`,
`Utils` from `src/src/utils.js`, the spec-modelled `IdMapping`) lives in
namespace `TW`.

JavaScript numbers are modelled as `Int` (no floats are needed by the
engine), byte buffers as `List Nat` with entries `< 256`, and the
nondeterministic `Utils.genId()` (timestamp plus random offset, assumed
collision-free) as a strictly increasing counter `nextId` threaded
through the provider state, which realises the spec's freshness
guarantee for internal ids.
-/

namespace TW

/-- A JavaScript/JSON value as the engine manipulates it.  `undefined` is
JavaScript `undefined` (an absent field), distinct from `null`. -/
inductive JValue where
  | undefined
  | null
  | bool (b : Bool)
  | num (n : Int)
  | str (s : String)
  | arr (xs : List JValue)
  | obj (fields : List (String × JValue))
deriving Repr

/-- JavaScript truthiness (`if (v)`, `v ? a : b`, `!!v`). -/
def jsTruthy : JValue → Bool
  | .undefined => false
  | .null => false
  | .bool b => b
  | .num n => n != 0
  | .str s => s != ""
  | .arr _ => true
  | .obj _ => true

/-- JavaScript `a || b`: returns `a` when truthy, otherwise `b`. -/
def jsOr (a b : JValue) : JValue :=
  if jsTruthy a then a else b

/-- `typeof v === "object"` — true for `null`, arrays and plain objects. -/
def typeofObject : JValue → Bool
  | .null => true
  | .arr _ => true
  | .obj _ => true
  | _ => false

/-- Property read `v.k` on a value known not to be `null`/`undefined`;
missing properties give `undefined`, as do non-object bases. -/
def getField : JValue → String → JValue
  | .obj fs, k =>
    match fs.find? (fun f => f.fst == k) with
    | some f => f.snd
    | none => .undefined
  | _, _ => .undefined

/-- Errors thrown by the modelled code: `ProviderRpcError {code, message}`
from `src/src/error.js`, and JavaScript `TypeError`s. -/
inductive JsError where
  | rpc (code : Nat) (message : String)
  | type (message : String)
deriving Repr

/-! ### Assoc-list model of JavaScript `Map` (lookup semantics only). -/

/-- `Map.get`. -/
def mget {α : Type} : List (Nat × α) → Nat → Option α
  | [], _ => none
  | e :: rest, k => if e.fst = k then some e.snd else mget rest k

/-- `Map.delete` (keys are unique in a JS `Map`, so removing every
occurrence has the same semantics). -/
def mdel {α : Type} : List (Nat × α) → Nat → List (Nat × α)
  | [], _ => []
  | e :: rest, k => if e.fst = k then mdel rest k else e :: mdel rest k

/-- `Map.set` (update-or-insert; iteration order is never observed, so
erase-then-cons has the same `get` semantics as the JS map). -/
def mset {α : Type} (m : List (Nat × α)) (k : Nat) (v : α) : List (Nat × α) :=
  (k, v) :: mdel m k

theorem mget_set_self {α : Type} (m : List (Nat × α)) (k : Nat) (v : α) :
    mget (mset m k v) k = some v := by
  simp [mget, mset]

theorem mget_del_self {α : Type} (m : List (Nat × α)) (k : Nat) :
    mget (mdel m k) k = none := by
  induction m with
  | nil => rfl
  | cons e rest ih =>
    by_cases he : e.fst = k
    · simpa [mdel, he] using ih
    · simpa [mdel, mget, he] using ih

theorem mget_del_ne {α : Type} (m : List (Nat × α)) (k k' : Nat)
    (h : k' ≠ k) : mget (mdel m k) k' = mget m k' := by
  induction m with
  | nil => rfl
  | cons e rest ih =>
    by_cases he : e.fst = k
    · have hne : e.fst ≠ k' := by
        rw [he]
        intro h'
        exact h h'.symm
      simp only [mdel, mget, if_pos he, if_neg hne]
      exact ih
    · by_cases he' : e.fst = k'
      · simp only [mdel, mget, if_neg he, if_pos he']
      · simp only [mdel, mget, if_neg he, if_neg he']
        exact ih

theorem mget_set_ne {α : Type} (m : List (Nat × α)) (k k' : Nat) (v : α)
    (h : k' ≠ k) : mget (mset m k v) k' = mget m k' := by
  have hkk : ¬((k, v).fst = k') := by
    intro h'
    exact h (by simpa using h'.symm)
  simp only [mset, mget, if_neg hkk]
  exact mget_del_ne m k k' h

/-! ### `src/src/utils.js` (identical copy at the tail of the file) -/

namespace Utils

/-- `String.prototype.toLowerCase`, mirrored via `Char.toLower` (ASCII
case mapping; the engine only lowercases hex addresses). -/
def toLowerStr (s : String) : String := ⟨s.data.map Char.toLower⟩

/-- Lowercase hex digit of a nibble. -/
def hexDigit (n : Nat) : Char :=
  if n < 10 then Char.ofNat (48 + n) else Char.ofNat (87 + n)

/-- `n.toString(16)` for a natural number. -/
def natToHex (n : Nat) : String := ⟨Nat.toDigits 16 n⟩

/-- `Utils.intToHex`: `undefined`/`null` pass through unchanged,
otherwise `"0x" + int.toString(16)`.  The provider passes
`config.chainId`, a nonnegative integer or absent. -/
def intToHex : Option Nat → JValue
  | none => .undefined
  | some n => .str ("0x" ++ natToHex n)

/-- UTF-8 encoding of one code point (`Char` excludes surrogates). -/
def utf8EncodeChar (c : Char) : List Nat :=
  let n := c.toNat
  if n < 0x80 then [n]
  else if n < 0x800 then [0xC0 + n / 64, 0x80 + n % 64]
  else if n < 0x10000 then
    [0xE0 + n / 4096, 0x80 + n / 64 % 64, 0x80 + n % 64]
  else
    [0xF0 + n / 262144, 0x80 + n / 4096 % 64, 0x80 + n / 64 % 64, 0x80 + n % 64]

/-- UTF-8 bytes of a string (`Buffer.from(string)`). -/
def utf8Encode (s : String) : List Nat := (s.data.map utf8EncodeChar).flatten

/-- Numeric value of a hex digit character, if it is one. -/
def hexVal (c : Char) : Option Nat :=
  if '0' ≤ c ∧ c ≤ '9' then some (c.toNat - 48)
  else if 'a' ≤ c ∧ c ≤ 'f' then some (c.toNat - 87)
  else if 'A' ≤ c ∧ c ≤ 'F' then some (c.toNat - 55)
  else none

/-- `Buffer.from(str, "hex")`: decodes pairs of hex digits, stopping at
the first invalid character or incomplete pair (Node semantics). -/
def hexDecode : List Char → List Nat
  | c1 :: c2 :: rest =>
    match hexVal c1, hexVal c2 with
    | some h, some l => (16 * h + l) :: hexDecode rest
    | _, _ => []
  | _ => []

/-- A JS number coerced to a byte by `Buffer.from(array)` (values are
taken mod 256; non-numbers coerce through `Number` to 0 for the shapes
that can appear here). -/
def byteOfJVal : JValue → Nat
  | .num n => (n % 256).toNat
  | .bool true => 1
  | _ => 0

/-- `Buffer.from(x)` without an encoding argument: UTF-8 for strings,
bytes for arrays; other argument types throw a `TypeError`. -/
def bufferFrom : JValue → Except JsError (List Nat)
  | .str s => .ok (utf8Encode s)
  | .arr xs => .ok (xs.map byteOfJVal)
  | _ => .error (.type "The first argument must be of type string or an instance of Buffer, ArrayBuffer, or Array")

/-- `message.indexOf("0x") === 0`. -/
def startsWith0x (s : String) : Bool :=
  match s.data with
  | '0' :: 'x' :: _ => true
  | _ => false

/-- `Utils.messageToBuffer` on a string: a `"0x"`-prefixed string is
hex-decoded (`message.replace("0x", "")` removes the first occurrence,
which the `indexOf` guard makes the prefix — i.e. the first two
characters), any other string is UTF-8 encoded. -/
def messageToBufferStr (s : String) : List Nat :=
  if startsWith0x s then hexDecode (s.data.drop 2) else utf8Encode s

/-- `Utils.messageToBuffer` (`src/src/utils.js:43`). -/
def messageToBuffer : JValue → Except JsError (List Nat)
  | .str s => .ok (messageToBufferStr s)
  | v => bufferFrom v

/-- `Buffer.prototype.toString("hex")` of a byte list, with the `"0x"`
prefix added by `Utils.bufferToHex`. -/
def byteToHex (b : Nat) : String := ⟨[hexDigit (b / 16 % 16), hexDigit (b % 16)]⟩

/-- `Utils.bufferToHex` on bytes already in buffer form. -/
def bufferToHexBytes (bs : List Nat) : String :=
  "0x" ++ String.join (bs.map byteToHex)

/-- `Utils.bufferToHex(x)` for an arbitrary value: `Buffer.from(x)`
then hex (used by `personal_sign` on the raw message string). -/
def bufferToHex (v : JValue) : Except JsError String := do
  let bs ← bufferFrom v
  .ok (bufferToHexBytes bs)

/-- The `isutf8` npm package: UTF-8 well-formedness over bytes,
following the standard (WHATWG) byte-range table. -/
def isUtf8 : List Nat → Bool
  | [] => true
  | b :: rest =>
    if b ≤ 0x7F then isUtf8 rest
    else if 0xC2 ≤ b ∧ b ≤ 0xDF then
      match rest with
      | c1 :: r => if 0x80 ≤ c1 ∧ c1 ≤ 0xBF then isUtf8 r else false
      | [] => false
    else if b = 0xE0 then
      match rest with
      | c1 :: c2 :: r =>
        if (0xA0 ≤ c1 ∧ c1 ≤ 0xBF) ∧ (0x80 ≤ c2 ∧ c2 ≤ 0xBF) then isUtf8 r else false
      | _ => false
    else if (0xE1 ≤ b ∧ b ≤ 0xEC) ∨ (0xEE ≤ b ∧ b ≤ 0xEF) then
      match rest with
      | c1 :: c2 :: r =>
        if (0x80 ≤ c1 ∧ c1 ≤ 0xBF) ∧ (0x80 ≤ c2 ∧ c2 ≤ 0xBF) then isUtf8 r else false
      | _ => false
    else if b = 0xED then
      match rest with
      | c1 :: c2 :: r =>
        if (0x80 ≤ c1 ∧ c1 ≤ 0x9F) ∧ (0x80 ≤ c2 ∧ c2 ≤ 0xBF) then isUtf8 r else false
      | _ => false
    else if b = 0xF0 then
      match rest with
      | c1 :: c2 :: c3 :: r =>
        if (0x90 ≤ c1 ∧ c1 ≤ 0xBF) ∧ (0x80 ≤ c2 ∧ c2 ≤ 0xBF) ∧ (0x80 ≤ c3 ∧ c3 ≤ 0xBF) then
          isUtf8 r
        else false
      | _ => false
    else if 0xF1 ≤ b ∧ b ≤ 0xF3 then
      match rest with
      | c1 :: c2 :: c3 :: r =>
        if (0x80 ≤ c1 ∧ c1 ≤ 0xBF) ∧ (0x80 ≤ c2 ∧ c2 ≤ 0xBF) ∧ (0x80 ≤ c3 ∧ c3 ≤ 0xBF) then
          isUtf8 r
        else false
      | _ => false
    else if b = 0xF4 then
      match rest with
      | c1 :: c2 :: c3 :: r =>
        if (0x80 ≤ c1 ∧ c1 ≤ 0x8F) ∧ (0x80 ≤ c2 ∧ c2 ≤ 0xBF) ∧ (0x80 ≤ c3 ∧ c3 ≤ 0xBF) then
          isUtf8 r
        else false
      | _ => false
    else false

/-- `Utils.handleSignParams` (`src/src/utils.js:57`): selects the
message from sign params `[addressOrMessage, message?]`.  Modelled on
absent and array params, the shapes the provider API admits;
`params[0].toLowerCase()` on a non-string throws. -/
def handleSignParams (address : String) (params : JValue) : Except JsError JValue :=
  if !jsTruthy params then .ok (.str "") else
  match params with
  | .arr ps =>
    if ps.length < 2 then .ok (ps.getD 0 .undefined)
    else
      match ps.getD 0 .undefined with
      | .str a0 =>
        .ok (if toLowerStr address = toLowerStr a0 then ps.getD 1 .undefined else .str a0)
      | _ => .error (.type "params[0].toLowerCase is not a function")
  | _ => .error (.type "handleSignParams: params shape outside the API contract")

end Utils

theorem charOfNat_toNat (n : Nat) (h : n.isValidChar) : (Char.ofNat n).toNat = n := by
  simp only [Char.ofNat, h, dif_pos, Char.toNat, Char.ofNatAux]
  rfl

theorem charToLower_idem (c : Char) : c.toLower.toLower = c.toLower := by
  unfold Char.toLower
  by_cases h : c.toNat ≥ 65 ∧ c.toNat ≤ 90
  · rw [if_pos h]
    have ht : (Char.ofNat (c.toNat + 32)).toNat = c.toNat + 32 :=
      charOfNat_toNat _ (Or.inl (by omega))
    rw [if_neg (by rw [ht]; omega)]
  · rw [if_neg h, if_neg h]

theorem toLowerStr_idem (s : String) :
    Utils.toLowerStr (Utils.toLowerStr s) = Utils.toLowerStr s := by
  simp only [Utils.toLowerStr, List.map_map]
  congr 1
  exact List.map_congr_left fun c _ => charToLower_idem c

theorem toLowerStr_eq_empty_iff (s : String) :
    Utils.toLowerStr s = "" ↔ s = "" := by
  constructor
  · intro h
    have : s.data.map Char.toLower = [] := congrArg String.data h
    rcases List.map_eq_nil_iff.mp this with h'
    cases s
    simp_all
  · intro h
    rw [h]
    rfl

/-! ### Requests, provider state and observable events -/

/-- A dapp request after JSON normalisation: `{id?, jsonrpc?, method,
params?}`.  `ptype` models the (normally absent) top-level `type` field
read by `wallet_watchAsset`. -/
structure Payload where
  id : JValue
  jsonrpc : JValue
  method : String
  params : JValue
  ptype : JValue
deriving Repr

/-- The mutable fields of a `TrustWeb3Provider` instance.
`selectedAddress` and `isProxyRPC` exist only in the V1 variant; V0
never touches them.  `callbacks` maps an internal id to the identity of
the promise whose resolve/reject pair the stored closure captures (the
internal id minted at registration); `wrapResults` stores the raw
`wrapResult` argument (a JS value — `sendAsync`'s array form stores
numbers). -/
structure PState where
  address : String
  selectedAddress : String
  ready : Bool
  chainId : JValue
  networkVersion : String
  isProxyRPC : Bool
  intIds : List (Nat × JValue)
  callbacks : List (Nat × Nat)
  wrapResults : List (Nat × JValue)
  nextId : Nat
deriving Repr

/-- Observable effects of the engine: a message posted on the host
channel, a delegation to the upstream RPC client (recording the captured
result shape), a settlement of a caller's promise (identified by the
internal id minted at its registration), and the orphan-response
diagnostic (the `callback not found` log plus the iframe-forwarding
scan, which touches only sibling instances outside this state). -/
inductive Event where
  | hostMsg (name : String) (id : Nat) (data : JValue)
  | rpcCall (method : String) (id : Nat) (params : JValue) (wrapResult : JValue)
  | settled (pid : Nat) (outcome : Except JsError JValue)
  | orphan (id : Nat)
deriving Repr

/-- Abstract typed-data hash: `TypedDataUtils.sign` from `eth-sig-util`
(external cryptography, excluded by the spec) as an opaque function of
the raw params value and the v4 flag. -/
abbrev HashFn := JValue → Bool → String

/-! ### Id Correlator

Modelled from the spec: `IdMapping` (`src/id_mapping.js`) is not under
`src/`; only its call sites `tryIntifyId`/`tryPopId` are.  Per the
spec's Id Correlator contract: `normalize` mints a fresh internal id
whenever the request carries an external id, records the entry
`{internal_id → external_id}`, and rewrites the request's id; an absent
id is left to `_request`'s own `genId` assignment.  `resolve_original`
removes and returns the external id when an entry exists, otherwise
reports "not found" (the caller falls back to the internal id).  Fresh
ids come from the `nextId` counter, realising the spec's invariant that
two in-flight requests never share an internal id. -/

/-- Modelled from the spec: `idMapping.tryIntifyId(payload)`.  Returns
the updated state, the rewritten payload, and the minted internal id
when the external id was present. -/
def tryIntifyId (st : PState) (p : Payload) : PState × Payload × Option Nat :=
  match p.id with
  | .undefined => (st, p, none)
  | e =>
    let n := st.nextId + 1
    ({ st with intIds := mset st.intIds n e, nextId := n },
     { p with id := .num (Int.ofNat n) }, some n)

/-- Modelled from the spec: `idMapping.tryPopId(id)` — remove and return
the external id if an entry exists, else "not found". -/
def tryPopId (st : PState) (id : Nat) : PState × Option JValue :=
  match mget st.intIds id with
  | some e => ({ st with intIds := mdel st.intIds id }, some e)
  | none => (st, none)

/-- The normalisation/registration prefix of `_request`, identical in
both variants: `tryIntifyId`, the `genId` assignment for a falsy id, the
`jsonrpc` default, and the `callbacks`/`wrapResults` registration.
Returns the updated state, the internal id and the normalised payload. -/
def registerReq (st : PState) (p : Payload) (wrapResult : JValue) :
    PState × Nat × Payload :=
  let (st1, p1, minted) := tryIntifyId st p
  let (st2, iid) :=
    match minted with
    | some n => (st1, n)
    | none => ({ st1 with nextId := st1.nextId + 1 }, st1.nextId + 1)
  let p2 := { p1 with id := .num (Int.ofNat iid), jsonrpc := jsOr p1.jsonrpc (.str "2.0") }
  ({ st2 with callbacks := mset st2.callbacks iid iid,
              wrapResults := mset st2.wrapResults iid wrapResult },
   iid, p2)

/-- `params[i]`: JS indexing, throwing on `undefined`/`null` bases. -/
def jsIndex : JValue → Nat → Except JsError JValue
  | .undefined, _ => .error (.type "Cannot read properties of undefined")
  | .null, _ => .error (.type "Cannot read properties of null")
  | .arr xs, i => .ok (xs.getD i .undefined)
  | .str s, i =>
    .ok (match s.data.get? i with
         | some c => .str ⟨[c]⟩
         | none => .undefined)
  | _, _ => .ok .undefined

/-- `v.k`: JS property read, throwing on `undefined`/`null` bases. -/
def getFieldEx : JValue → String → Except JsError JValue
  | .undefined, k => .error (.type ("Cannot read properties of undefined (reading '" ++ k ++ "')"))
  | .null, k => .error (.type ("Cannot read properties of null (reading '" ++ k ++ "')"))
  | v, k => .ok (getField v k)

/-- The JSON object form of a normalised payload, as forwarded whole to
the host in proxy mode. -/
def payloadObj (iid : Nat) (p : Payload) : JValue :=
  .obj [("id", .num (Int.ofNat iid)), ("jsonrpc", p.jsonrpc),
        ("method", .str p.method), ("params", p.params)]

/-! ### Immediate-local answers (identical in both variants) -/

/-- `eth_accounts` (`src/src/index.js:290`). -/
def eth_accounts (st : PState) : JValue :=
  if st.address != "" then .arr [.str st.address] else .arr []

/-- `eth_coinbase` (`src/src/index.js:294`). -/
def eth_coinbase (st : PState) : JValue := .str st.address

/-- `net_version` (`src/src/index.js:298`). -/
def net_version (st : PState) : JValue := .str st.networkVersion

/-- `eth_chainId` (`src/src/index.js:302`). -/
def eth_chainId (st : PState) : JValue := st.chainId

/-- Wallet configuration handed to the constructor / `setConfig`
(`rpcUrl` configures the external upstream client and `isDebug` only
gates `console.log`, neither is engine state). -/
structure Config where
  address : Option String
  chainId : Option Nat
  isProxyRPC : Bool
deriving Repr

/-! ### V1 — the provider in `src/src/index.js` -/

namespace V1

/-- `setAddress` (`src/src/index.js:32`): `(address || "").toLowerCase()`
into `address` and `selectedAddress`; `ready = !!address`. -/
def setAddress (st : PState) (address : Option String) : PState :=
  let a := Utils.toLowerStr (address.getD "")
  { st with address := a, selectedAddress := a, ready := address.getD "" != "" }

/-- `setConfig` (`src/src/index.js:38`).  `"" + config.chainId` turns an
absent chain id into the string `"undefined"`. -/
def setConfig (st : PState) (c : Config) : PState :=
  let st1 := setAddress st c.address
  { st1 with
      chainId := Utils.intToHex c.chainId,
      networkVersion :=
        match c.chainId with
        | some n => toString n
        | none => "undefined",
      isProxyRPC := c.isProxyRPC }

/-- The `TrustWeb3Provider` constructor (`src/src/index.js:19`): session
state from the config, fresh correlator and registry maps (the `connect`
event emission is an EventEmitter effect outside the engine). -/
def mkProvider (c : Config) : PState :=
  setConfig
    { address := "", selectedAddress := "", ready := false, chainId := .undefined,
      networkVersion := "", isProxyRPC := false, intIds := [], callbacks := [],
      wrapResults := [], nextId := 0 } c

/-- `sendError` (`src/src/index.js:455`): settle with the error and drop
the callback when one is registered, otherwise only log. -/
def sendError (st : PState) (id : Nat) (e : JsError) : PState × List Event :=
  match mget st.callbacks id with
  | some pid =>
    ({ st with callbacks := mdel st.callbacks id }, [.settled pid (.error e)])
  | none => (st, [])

/-- `postMessage` (`src/src/index.js:387`): the readiness gate.  The
emitted message also carries dapp origin/icon metadata taken from the
page environment, which is outside the modelled state. -/
def postMessage (st : PState) (handler : String) (id : Nat) (data : JValue) :
    PState × List Event :=
  if st.ready || handler == "requestAccounts" || handler == "addEthereumChain" ||
      handler == "switchEthereumChain" || handler == "getPermissions" ||
      handler == "requestPermissions" then
    (st, [.hostMsg handler id data])
  else
    sendError st id (.rpc 4100 "provider is not ready")

/-- The envelope-detection guard of `sendResponse`
(`src/src/index.js:423`): `result != null && typeof result === "object"
&& result.jsonrpc && result.result`. -/
def isEnvelope (result : JValue) : Bool :=
  match result with
  | .null => false
  | .undefined => false
  | r => typeofObject r && jsTruthy (getField r "jsonrpc") && jsTruthy (getField r "result")

/-- The reply `data = {jsonrpc: "2.0", id: originId, result}` built by
`sendResponse`, with the envelope-unwrap applied to the raw result. -/
def mkReply (originId : JValue) (result : JValue) : JValue :=
  .obj [("jsonrpc", .str "2.0"), ("id", originId),
        ("result", if isEnvelope result then getField result "result" else result)]

/-- `sendResponse` (`src/src/index.js:418`).  Note: the correlation
entry is popped before the callback lookup, the reply id falls back to
the internal id when the popped external id is falsy (`tryPopId(id) ||
id`), and the `wrapResults` entry is never deleted. -/
def sendResponse (st : PState) (id : Nat) (result : JValue) : PState × List Event :=
  let s1 := tryPopId st id
  let originId := jsOr (s1.snd.getD .undefined) (.num (Int.ofNat id))
  let wrapResult := (mget s1.fst.wrapResults id).getD .undefined
  let data := mkReply originId result
  match mget s1.fst.callbacks id with
  | some pid =>
    ({ s1.fst with callbacks := mdel s1.fst.callbacks id },
     [.settled pid (.ok (if jsTruthy wrapResult then data else result))])
  | none => (s1.fst, [.orphan id])

/-- The fixed 4200 rejection text (`src/src/index.js:251`). -/
def unsupportedMsg (method : String) : String :=
  "MathWallet does not support calling " ++ method ++ ". Please use your own solution"

/-- Every host-bridge method handler in the source ends in
`this.postMessage(action, payload.id, data)`; the handlers below compute
the `(action, data)` pair and this wrapper performs that final call. -/
def post (st : PState) (iid : Nat) (x : Except JsError (String × JValue)) :
    Except JsError (PState × List Event) :=
  x.map fun nd => postMessage st nd.fst iid nd.snd

/-- `eth_sign` (`src/src/index.js:310`): UTF-8-valid buffers go to
`signPersonalMessage`, binary ones to `signMessage`, both as hex. -/
def eth_sign (st : PState) (p : Payload) : Except JsError (String × JValue) := do
  let message ← Utils.handleSignParams st.address p.params
  let buffer ← Utils.messageToBuffer message
  let hex := Utils.bufferToHexBytes buffer
  if Utils.isUtf8 buffer then
    .ok ("signPersonalMessage", .obj [("data", .str hex)])
  else
    .ok ("signMessage", .obj [("data", .str hex)])

/-- `personal_sign` (`src/src/index.js:321`): always
`signPersonalMessage`; a zero-length decoded buffer sends a hex
re-encoding of the message value, otherwise the message verbatim. -/
def personal_sign (st : PState) (p : Payload) : Except JsError (String × JValue) := do
  let message ← Utils.handleSignParams st.address p.params
  let buffer ← Utils.messageToBuffer message
  if buffer.length = 0 then
    let hex ← Utils.bufferToHex message
    .ok ("signPersonalMessage", .obj [("data", .str hex)])
  else
    .ok ("signPersonalMessage", .obj [("data", message)])

/-- `personal_ecRecover` (`src/src/index.js:333`). -/
def personal_ecRecover (p : Payload) : Except JsError (String × JValue) := do
  let sig ← jsIndex p.params 1
  let msg ← jsIndex p.params 0
  .ok ("ecRecover", .obj [("signature", sig), ("message", msg)])

/-- `eth_signTypedData` (`src/src/index.js:340`): `JSON.parse` and
`TypedDataUtils.sign` are external; the posted hash is opaque. -/
def eth_signTypedData (hashFn : HashFn) (p : Payload) (useV4 : Bool) :
    Except JsError (String × JValue) := do
  let raw ← jsIndex p.params 1
  .ok ("signTypedMessage",
    .obj [("data", .str ("0x" ++ hashFn raw useV4)), ("raw", raw),
          ("method", .str p.method)])

/-- `eth_sendTransaction` (`src/src/index.js:350`). -/
def eth_sendTransaction (p : Payload) : Except JsError (String × JValue) := do
  let tx ← jsIndex p.params 0
  .ok ("signTransaction", tx)

/-- `wallet_watchAsset` (`src/src/index.js:358`). -/
def wallet_watchAsset (p : Payload) : Except JsError (String × JValue) := do
  let options ← getFieldEx p.params "options"
  let contract ← getFieldEx options "address"
  let symbol ← getFieldEx options "symbol"
  let decimals ← getFieldEx options "decimals"
  let image ← getFieldEx options "image"
  .ok ("watchAsset",
    .obj [("type", p.ptype), ("contract", contract), ("symbol", symbol),
          ("decimals", jsOr decimals (.num 0)), ("image", jsOr image (.str ""))])

/-- `wallet_addEthereumChain` (`src/src/index.js:369`). -/
def wallet_addEthereumChain (p : Payload) : Except JsError (String × JValue) := do
  let chain ← jsIndex p.params 0
  .ok ("addEthereumChain", chain)

/-- `wallet_switchEthereumChain` (`src/src/index.js:373`). -/
def wallet_switchEthereumChain (p : Payload) : Except JsError (String × JValue) := do
  let chain ← jsIndex p.params 0
  .ok ("switchEthereumChain", chain)

/-- The `switch (payload.method)` body of `_request`
(`src/src/index.js:212`), run inside the Promise executor on the
already-registered state. -/
def dispatch (hashFn : HashFn) (st : PState) (iid : Nat) (p : Payload)
    (wrapResult : JValue) : Except JsError (PState × List Event) :=
  match p.method with
  | "eth_accounts" => .ok (sendResponse st iid (eth_accounts st))
  | "eth_coinbase" => .ok (sendResponse st iid (eth_coinbase st))
  | "net_version" => .ok (sendResponse st iid (net_version st))
  | "eth_chainId" => .ok (sendResponse st iid (eth_chainId st))
  | "eth_sign" => post st iid (eth_sign st p)
  | "personal_sign" => post st iid (personal_sign st p)
  | "personal_ecRecover" => post st iid (personal_ecRecover p)
  | "eth_signTypedData_v3" => post st iid (eth_signTypedData hashFn p false)
  | "eth_signTypedData" => post st iid (eth_signTypedData hashFn p true)
  | "eth_signTypedData_v4" => post st iid (eth_signTypedData hashFn p true)
  | "eth_sendTransaction" => post st iid (eth_sendTransaction p)
  | "eth_requestAccounts" => .ok (postMessage st "requestAccounts" iid (.obj []))
  | "wallet_watchAsset" => post st iid (wallet_watchAsset p)
  | "wallet_addEthereumChain" => post st iid (wallet_addEthereumChain p)
  | "wallet_switchEthereumChain" => post st iid (wallet_switchEthereumChain p)
  | "wallet_getPermissions" => .ok (postMessage st "getPermissions" iid (.obj []))
  | "wallet_requestPermissions" => .ok (postMessage st "requestPermissions" iid p.params)
  | "eth_newFilter" => .error (.rpc 4200 (unsupportedMsg p.method))
  | "eth_newBlockFilter" => .error (.rpc 4200 (unsupportedMsg p.method))
  | "eth_newPendingTransactionFilter" => .error (.rpc 4200 (unsupportedMsg p.method))
  | "eth_uninstallFilter" => .error (.rpc 4200 (unsupportedMsg p.method))
  | "eth_subscribe" => .error (.rpc 4200 (unsupportedMsg p.method))
  | _ =>
    if st.isProxyRPC then
      .ok (postMessage st "rpcCall" iid (payloadObj iid p))
    else
      .ok ({ st with callbacks := mdel st.callbacks iid,
                     wrapResults := mdel st.wrapResults iid },
           [.rpcCall p.method iid p.params wrapResult])

/-- `_request` (`src/src/index.js:191`): normalise and register the
call, then dispatch; any error thrown inside the Promise executor
rejects the caller's promise (the registered map entries survive such a
throw). -/
def _request (hashFn : HashFn) (st : PState) (p : Payload) (wrapResult : JValue) :
    PState × List Event :=
  let r := registerReq st p wrapResult
  match dispatch hashFn r.fst r.snd.fst r.snd.snd wrapResult with
  | .ok out => out
  | .error e => (r.fst, [.settled r.snd.fst (.error e)])

/-- `request` (`src/src/index.js:49`): the public entry point calls
`_request(payload, false)` — bare-value result shape. -/
def request (hashFn : HashFn) (st : PState) (p : Payload) : PState × List Event :=
  _request hashFn st p (.bool false)

/-- `send` (`src/src/index.js:118`), payload form: builds the normalised
response request (`id: payload.id || genId()`, `jsonrpc: "2.0"`,
`params: payload.params || []`) and calls `_request` with its default
`wrapResult = true`. -/
def send (hashFn : HashFn) (st : PState) (p : Payload) : PState × List Event :=
  let s1 :=
    if jsTruthy p.id then (st, p.id)
    else ({ st with nextId := st.nextId + 1 }, .num (Int.ofNat (st.nextId + 1)))
  _request hashFn s1.fst
    { id := s1.snd, jsonrpc := .str "2.0", method := p.method,
      params := jsOr p.params (.arr []), ptype := .undefined }
    (.bool true)

/-- `sendAsync` (`src/src/index.js:165`), single-payload form:
`_request(payload)` with the default `wrapResult = true`. -/
def sendAsyncSingle (hashFn : HashFn) (st : PState) (p : Payload) :
    PState × List Event :=
  _request hashFn st p (.bool true)

/-- `sendAsync`, array form: `payload.map(that._request.bind(that))`.
`Array.prototype.map` invokes its callback with `(element, index,
array)`, so each element's **index** is passed as `wrapResult` (the
third argument is dropped — `_request` has only two parameters). -/
def sendAsyncArrayAux (hashFn : HashFn) :
    PState → Nat → List Payload → PState × List Event
  | st, _, [] => (st, [])
  | st, i, p :: rest =>
    let r1 := _request hashFn st p (.num (Int.ofNat i))
    let r2 := sendAsyncArrayAux hashFn r1.fst (i + 1) rest
    (r2.fst, r1.snd ++ r2.snd)

/-- `sendAsync`, array form, from index 0. -/
def sendAsyncArray (hashFn : HashFn) (st : PState) (ps : List Payload) :
    PState × List Event :=
  sendAsyncArrayAux hashFn st 0 ps

end V1

/-! ### V0 — the provider variant in `src/unnamed/part_000` -/

namespace V0

/-- `setAddress` (`src/unnamed/part_000:33`): no `selectedAddress`. -/
def setAddress (st : PState) (address : Option String) : PState :=
  { st with address := Utils.toLowerStr (address.getD ""),
            ready := address.getD "" != "" }

/-- `setConfig` (`src/unnamed/part_000:38`): no proxy flag. -/
def setConfig (st : PState) (c : Config) : PState :=
  let st1 := setAddress st c.address
  { st1 with
      chainId := Utils.intToHex c.chainId,
      networkVersion :=
        match c.chainId with
        | some n => toString n
        | none => "undefined" }

/-- The constructor (`src/unnamed/part_000:18`). -/
def mkProvider (c : Config) : PState :=
  setConfig
    { address := "", selectedAddress := "", ready := false, chainId := .undefined,
      networkVersion := "", isProxyRPC := false, intIds := [], callbacks := [],
      wrapResults := [], nextId := 0 } c

/-- `sendError` (`src/unnamed/part_000:343`), identical to V1's. -/
def sendError (st : PState) (id : Nat) (e : JsError) : PState × List Event :=
  match mget st.callbacks id with
  | some pid =>
    ({ st with callbacks := mdel st.callbacks id }, [.settled pid (.error e)])
  | none => (st, [])

/-- `postMessage` (`src/unnamed/part_000:281`): the readiness gate with
the two-element allow-list `requestAccounts`, `addEthereumChain`. -/
def postMessage (st : PState) (handler : String) (id : Nat) (data : JValue) :
    PState × List Event :=
  if st.ready || handler == "requestAccounts" || handler == "addEthereumChain" then
    (st, [.hostMsg handler id data])
  else
    sendError st id (.rpc 4100 "provider is not ready")

/-- The envelope-detection guard of V0's `sendResponse`
(`src/unnamed/part_000:309`): `typeof result === "object" &&
result.jsonrpc && result.result` — **no null guard**, and in JavaScript
`typeof null === "object"`, so a `null` result throws a `TypeError`
reading `null.jsonrpc`. -/
def isEnvelope (result : JValue) : Except JsError Bool :=
  if typeofObject result then
    match result with
    | .null => .error (.type "Cannot read properties of null (reading 'jsonrpc')")
    | r => .ok (jsTruthy (getField r "jsonrpc") && jsTruthy (getField r "result"))
  else
    .ok false

/-- `sendResponse` (`src/unnamed/part_000:304`); throws on `null`
results (see `V0.isEnvelope`).  The correlation pop precedes the throw
point. -/
def sendResponse (st : PState) (id : Nat) (result : JValue) :
    Except JsError (PState × List Event) := do
  let s1 := tryPopId st id
  let originId := jsOr (s1.snd.getD .undefined) (.num (Int.ofNat id))
  let wrapResult := (mget s1.fst.wrapResults id).getD .undefined
  let unwrap ← isEnvelope result
  let data := JValue.obj [("jsonrpc", .str "2.0"), ("id", originId),
    ("result", if unwrap then getField result "result" else result)]
  match mget s1.fst.callbacks id with
  | some pid =>
    .ok ({ s1.fst with callbacks := mdel s1.fst.callbacks id },
      [.settled pid (.ok (if jsTruthy wrapResult then data else result))])
  | none => .ok (s1.fst, [.orphan id])

/-- The fixed 4200 rejection text (`src/unnamed/part_000:180`). -/
def unsupportedMsg (method : String) : String :=
  "Trust does not support calling " ++ method ++ ". Please use your own solution"

/-- As in V1: each handler's final `this.postMessage(action, payload.id,
data)` applied to the computed `(action, data)` pair. -/
def post (st : PState) (iid : Nat) (x : Except JsError (String × JValue)) :
    Except JsError (PState × List Event) :=
  x.map fun nd => postMessage st nd.fst iid nd.snd

/-- `eth_sign` (`src/unnamed/part_000:221`): buffer decoded from
`params[1]` directly. -/
def eth_sign (p : Payload) : Except JsError (String × JValue) := do
  let message ← jsIndex p.params 1
  let buffer ← Utils.messageToBuffer message
  let hex := Utils.bufferToHexBytes buffer
  if Utils.isUtf8 buffer then
    .ok ("signPersonalMessage", .obj [("data", .str hex)])
  else
    .ok ("signMessage", .obj [("data", .str hex)])

/-- `personal_sign` (`src/unnamed/part_000:231`): message is
`params[0]` directly. -/
def personal_sign (p : Payload) : Except JsError (String × JValue) := do
  let message ← jsIndex p.params 0
  let buffer ← Utils.messageToBuffer message
  if buffer.length = 0 then
    let hex ← Utils.bufferToHex message
    .ok ("signPersonalMessage", .obj [("data", .str hex)])
  else
    .ok ("signPersonalMessage", .obj [("data", message)])

/-- `personal_ecRecover` (`src/unnamed/part_000:243`). -/
def personal_ecRecover (p : Payload) : Except JsError (String × JValue) := do
  let sig ← jsIndex p.params 1
  let msg ← jsIndex p.params 0
  .ok ("ecRecover", .obj [("signature", sig), ("message", msg)])

/-- `eth_signTypedData` (`src/unnamed/part_000:250`): posts the raw
`params[1]` (no hashing, no version flag). -/
def eth_signTypedData (p : Payload) : Except JsError (String × JValue) := do
  let raw ← jsIndex p.params 1
  .ok ("signTypedMessage", .obj [("data", raw)])

/-- `eth_sendTransaction` (`src/unnamed/part_000:256`). -/
def eth_sendTransaction (p : Payload) : Except JsError (String × JValue) := do
  let tx ← jsIndex p.params 0
  .ok ("signTransaction", tx)

/-- `wallet_watchAsset` (`src/unnamed/part_000:264`): no `image`
field. -/
def wallet_watchAsset (p : Payload) : Except JsError (String × JValue) := do
  let options ← getFieldEx p.params "options"
  let contract ← getFieldEx options "address"
  let symbol ← getFieldEx options "symbol"
  let decimals ← getFieldEx options "decimals"
  .ok ("watchAsset",
    .obj [("type", p.ptype), ("contract", contract), ("symbol", symbol),
          ("decimals", jsOr decimals (.num 0))])

/-- `wallet_addEthereumChain` (`src/unnamed/part_000:274`). -/
def wallet_addEthereumChain (p : Payload) : Except JsError (String × JValue) := do
  let chain ← jsIndex p.params 0
  .ok ("addEthereumChain", chain)

/-- The `switch (payload.method)` body of V0's `_request`
(`src/unnamed/part_000:149`): no `eth_signTypedData_v4`, no
`wallet_switchEthereumChain`/`wallet_getPermissions`/
`wallet_requestPermissions`, no proxy branch — those methods fall
through to the upstream RPC default. -/
def dispatch (st : PState) (iid : Nat) (p : Payload) (wrapResult : JValue) :
    Except JsError (PState × List Event) :=
  match p.method with
  | "eth_accounts" => sendResponse st iid (eth_accounts st)
  | "eth_coinbase" => sendResponse st iid (eth_coinbase st)
  | "net_version" => sendResponse st iid (net_version st)
  | "eth_chainId" => sendResponse st iid (eth_chainId st)
  | "eth_sign" => post st iid (eth_sign p)
  | "personal_sign" => post st iid (personal_sign p)
  | "personal_ecRecover" => post st iid (personal_ecRecover p)
  | "eth_signTypedData" => post st iid (eth_signTypedData p)
  | "eth_signTypedData_v3" => post st iid (eth_signTypedData p)
  | "eth_sendTransaction" => post st iid (eth_sendTransaction p)
  | "eth_requestAccounts" => .ok (postMessage st "requestAccounts" iid (.obj []))
  | "wallet_watchAsset" => post st iid (wallet_watchAsset p)
  | "wallet_addEthereumChain" => post st iid (wallet_addEthereumChain p)
  | "eth_newFilter" => .error (.rpc 4200 (unsupportedMsg p.method))
  | "eth_newBlockFilter" => .error (.rpc 4200 (unsupportedMsg p.method))
  | "eth_newPendingTransactionFilter" => .error (.rpc 4200 (unsupportedMsg p.method))
  | "eth_uninstallFilter" => .error (.rpc 4200 (unsupportedMsg p.method))
  | "eth_subscribe" => .error (.rpc 4200 (unsupportedMsg p.method))
  | _ =>
    .ok ({ st with callbacks := mdel st.callbacks iid,
                   wrapResults := mdel st.wrapResults iid },
         [.rpcCall p.method iid p.params wrapResult])

/-- `_request` (`src/unnamed/part_000:128`), with the same
registration prefix and executor-throw capture as V1's. -/
def _request (st : PState) (p : Payload) (wrapResult : JValue) :
    PState × List Event :=
  let r := registerReq st p wrapResult
  match dispatch r.fst r.snd.fst r.snd.snd wrapResult with
  | .ok out => out
  | .error e => (r.fst, [.settled r.snd.fst (.error e)])

end V0

/-! ### Generic lemmas about the engine -/

/-- Equality of the session-state fields (address, selected address,
readiness, chain and network ids, proxy flag); the correlator and
registry maps may differ. -/
def sessionEq (a b : PState) : Prop :=
  a.address = b.address ∧ a.selectedAddress = b.selectedAddress ∧
  a.ready = b.ready ∧ a.chainId = b.chainId ∧
  a.networkVersion = b.networkVersion ∧ a.isProxyRPC = b.isProxyRPC

theorem sessionEq_refl (a : PState) : sessionEq a a :=
  ⟨rfl, rfl, rfl, rfl, rfl, rfl⟩

theorem sessionEq_trans {a b c : PState} (h1 : sessionEq a b) (h2 : sessionEq b c) :
    sessionEq a c := by
  obtain ⟨x1, x2, x3, x4, x5, x6⟩ := h1
  obtain ⟨y1, y2, y3, y4, y5, y6⟩ := h2
  exact ⟨x1.trans y1, x2.trans y2, x3.trans y3, x4.trans y4, x5.trans y5, x6.trans y6⟩

theorem registerReq_undef (st : PState) (w : JValue) (p : Payload)
    (h : p.id = .undefined) :
    registerReq st p w =
      ({ st with callbacks := mset st.callbacks (st.nextId + 1) (st.nextId + 1),
                 wrapResults := mset st.wrapResults (st.nextId + 1) w,
                 nextId := st.nextId + 1 },
       st.nextId + 1,
       { p with id := .num (Int.ofNat (st.nextId + 1)),
                jsonrpc := jsOr p.jsonrpc (.str "2.0") }) := by
  simp [registerReq, tryIntifyId, h]

theorem registerReq_present (st : PState) (w : JValue) (p : Payload)
    (h : p.id ≠ .undefined) :
    registerReq st p w =
      ({ st with intIds := mset st.intIds (st.nextId + 1) p.id,
                 callbacks := mset st.callbacks (st.nextId + 1) (st.nextId + 1),
                 wrapResults := mset st.wrapResults (st.nextId + 1) w,
                 nextId := st.nextId + 1 },
       st.nextId + 1,
       { p with id := .num (Int.ofNat (st.nextId + 1)),
                jsonrpc := jsOr p.jsonrpc (.str "2.0") }) := by
  cases hp : p.id with
  | undefined => exact absurd hp h
  | null => simp [registerReq, tryIntifyId, hp]
  | bool b => simp [registerReq, tryIntifyId, hp]
  | num n => simp [registerReq, tryIntifyId, hp]
  | str s => simp [registerReq, tryIntifyId, hp]
  | arr xs => simp [registerReq, tryIntifyId, hp]
  | obj fs => simp [registerReq, tryIntifyId, hp]

/-- Both branches of `registerReq` mint the internal id `st.nextId + 1`,
register both map entries under it, preserve the session fields and keep
the request's method. -/
theorem registerReq_shape (st : PState) (w : JValue) (p : Payload) :
    (registerReq st p w).snd.fst = st.nextId + 1 ∧
    (registerReq st p w).fst.nextId = st.nextId + 1 ∧
    (registerReq st p w).fst.callbacks = mset st.callbacks (st.nextId + 1) (st.nextId + 1) ∧
    (registerReq st p w).fst.wrapResults = mset st.wrapResults (st.nextId + 1) w ∧
    sessionEq (registerReq st p w).fst st ∧
    (registerReq st p w).snd.snd.method = p.method ∧
    (registerReq st p w).snd.snd.params = p.params ∧
    (registerReq st p w).snd.snd.ptype = p.ptype := by
  by_cases h : p.id = .undefined
  · rw [registerReq_undef st w p h]
    exact ⟨rfl, rfl, rfl, rfl, sessionEq_refl _, rfl, rfl, rfl⟩
  · rw [registerReq_present st w p h]
    exact ⟨rfl, rfl, rfl, rfl, sessionEq_refl _, rfl, rfl, rfl⟩

theorem tryPopId_session (st : PState) (id : Nat) :
    sessionEq (tryPopId st id).fst st := by
  unfold tryPopId
  cases mget st.intIds id <;> exact sessionEq_refl _

theorem tryPopId_callbacks (st : PState) (id : Nat) :
    (tryPopId st id).fst.callbacks = st.callbacks := by
  unfold tryPopId
  cases mget st.intIds id <;> rfl

theorem tryPopId_wrapResults (st : PState) (id : Nat) :
    (tryPopId st id).fst.wrapResults = st.wrapResults := by
  unfold tryPopId
  cases mget st.intIds id <;> rfl

theorem tryPopId_snd (st : PState) (id : Nat) :
    (tryPopId st id).snd = mget st.intIds id := by
  unfold tryPopId
  cases mget st.intIds id <;> rfl

theorem tryPopId_intIds_found (st : PState) (id : Nat) (e : JValue)
    (h : mget st.intIds id = some e) :
    (tryPopId st id).fst.intIds = mdel st.intIds id := by
  unfold tryPopId
  rw [h]

theorem tryPopId_intIds_missing (st : PState) (id : Nat)
    (h : mget st.intIds id = none) :
    (tryPopId st id).fst.intIds = st.intIds := by
  unfold tryPopId
  rw [h]

namespace V1

theorem sendError_session (st : PState) (id : Nat) (e : JsError) :
    sessionEq (sendError st id e).fst st := by
  unfold sendError
  cases mget st.callbacks id <;> exact sessionEq_refl _

theorem postMessage_session (st : PState) (h : String) (id : Nat) (d : JValue) :
    sessionEq (postMessage st h id d).fst st := by
  unfold postMessage
  split
  · exact sessionEq_refl _
  · exact sendError_session st id _

theorem sendResponse_session (st : PState) (id : Nat) (r : JValue) :
    sessionEq (sendResponse st id r).fst st := by
  have hp := tryPopId_session st id
  unfold sendResponse
  dsimp only
  split
  · exact hp
  · exact hp

theorem post_ok {st : PState} {iid : Nat} {x : Except JsError (String × JValue)}
    {out : PState × List Event} (h : post st iid x = .ok out) :
    ∃ nd, x = .ok nd ∧ out = postMessage st nd.fst iid nd.snd := by
  cases x with
  | error e => simp [post, Except.map] at h
  | ok nd =>
    refine ⟨nd, rfl, ?_⟩
    simpa [post, Except.map] using h.symm

theorem dispatch_ok_session {hashFn : HashFn} {st : PState} {iid : Nat}
    {p : Payload} {w : JValue} {out : PState × List Event}
    (h : dispatch hashFn st iid p w = .ok out) : sessionEq out.fst st := by
  unfold dispatch at h
  split at h
  case _ => exact (Except.ok.inj h) ▸ sendResponse_session st iid _
  case _ => exact (Except.ok.inj h) ▸ sendResponse_session st iid _
  case _ => exact (Except.ok.inj h) ▸ sendResponse_session st iid _
  case _ => exact (Except.ok.inj h) ▸ sendResponse_session st iid _
  case _ =>
    obtain ⟨nd, _, ho⟩ := post_ok h
    exact ho ▸ postMessage_session st nd.fst iid nd.snd
  case _ =>
    obtain ⟨nd, _, ho⟩ := post_ok h
    exact ho ▸ postMessage_session st nd.fst iid nd.snd
  case _ =>
    obtain ⟨nd, _, ho⟩ := post_ok h
    exact ho ▸ postMessage_session st nd.fst iid nd.snd
  case _ =>
    obtain ⟨nd, _, ho⟩ := post_ok h
    exact ho ▸ postMessage_session st nd.fst iid nd.snd
  case _ =>
    obtain ⟨nd, _, ho⟩ := post_ok h
    exact ho ▸ postMessage_session st nd.fst iid nd.snd
  case _ =>
    obtain ⟨nd, _, ho⟩ := post_ok h
    exact ho ▸ postMessage_session st nd.fst iid nd.snd
  case _ =>
    obtain ⟨nd, _, ho⟩ := post_ok h
    exact ho ▸ postMessage_session st nd.fst iid nd.snd
  case _ => exact (Except.ok.inj h) ▸ postMessage_session st _ iid _
  case _ =>
    obtain ⟨nd, _, ho⟩ := post_ok h
    exact ho ▸ postMessage_session st nd.fst iid nd.snd
  case _ =>
    obtain ⟨nd, _, ho⟩ := post_ok h
    exact ho ▸ postMessage_session st nd.fst iid nd.snd
  case _ =>
    obtain ⟨nd, _, ho⟩ := post_ok h
    exact ho ▸ postMessage_session st nd.fst iid nd.snd
  case _ => exact (Except.ok.inj h) ▸ postMessage_session st _ iid _
  case _ => exact (Except.ok.inj h) ▸ postMessage_session st _ iid _
  case _ => simp at h
  case _ => simp at h
  case _ => simp at h
  case _ => simp at h
  case _ => simp at h
  case _ =>
    split at h
    · exact (Except.ok.inj h) ▸ postMessage_session st _ iid _
    · exact (Except.ok.inj h) ▸ sessionEq_refl _

/-- `sendResponse` when a callback is registered: one settlement event,
shaped by the stored `wrapResult` with the reply id resolved through
`tryPopId(id) || id`; the callback entry is removed, the `wrapResults`
entry is not. -/
theorem sendResponse_found (st : PState) (id : Nat) (r : JValue) (pid : Nat)
    (hc : mget st.callbacks id = some pid) :
    (sendResponse st id r).snd =
      [.settled pid (.ok (if jsTruthy ((mget st.wrapResults id).getD .undefined)
        then mkReply (jsOr ((mget st.intIds id).getD .undefined) (.num (Int.ofNat id))) r
        else r))] ∧
    (sendResponse st id r).fst.callbacks = mdel st.callbacks id ∧
    (sendResponse st id r).fst.wrapResults = st.wrapResults ∧
    (sendResponse st id r).fst.intIds = (tryPopId st id).fst.intIds := by
  unfold sendResponse
  dsimp only
  rw [tryPopId_callbacks, tryPopId_wrapResults, tryPopId_snd, hc]
  exact ⟨rfl, rfl, rfl, rfl⟩

/-- `sendResponse` with no registered callback: the orphan diagnostic
only; the `callbacks` and `wrapResults` maps are untouched (the
correlation entry, if any, was still popped). -/
theorem sendResponse_orphan (st : PState) (id : Nat) (r : JValue)
    (hc : mget st.callbacks id = none) :
    (sendResponse st id r).snd = [.orphan id] ∧
    (sendResponse st id r).fst.callbacks = st.callbacks ∧
    (sendResponse st id r).fst.wrapResults = st.wrapResults := by
  unfold sendResponse
  dsimp only
  rw [tryPopId_callbacks, hc]
  exact ⟨rfl, tryPopId_callbacks st id, tryPopId_wrapResults st id⟩

/-- `sendError` when a callback is registered. -/
theorem sendError_found (st : PState) (id : Nat) (e : JsError) (pid : Nat)
    (hc : mget st.callbacks id = some pid) :
    sendError st id e =
      ({ st with callbacks := mdel st.callbacks id }, [.settled pid (.error e)]) := by
  unfold sendError
  rw [hc]

/-- `sendError` with no registered callback is a pure no-op. -/
theorem sendError_missing (st : PState) (id : Nat) (e : JsError)
    (hc : mget st.callbacks id = none) :
    sendError st id e = (st, []) := by
  unfold sendError
  rw [hc]

theorem dispatch_accounts (hashFn : HashFn) (s : PState) (iid : Nat)
    (q : Payload) (w : JValue) (h : q.method = "eth_accounts") :
    dispatch hashFn s iid q w = .ok (sendResponse s iid (eth_accounts s)) := by
  unfold dispatch
  rw [h]
  rfl

theorem dispatch_coinbase (hashFn : HashFn) (s : PState) (iid : Nat)
    (q : Payload) (w : JValue) (h : q.method = "eth_coinbase") :
    dispatch hashFn s iid q w = .ok (sendResponse s iid (eth_coinbase s)) := by
  unfold dispatch
  rw [h]
  rfl

theorem dispatch_netVersion (hashFn : HashFn) (s : PState) (iid : Nat)
    (q : Payload) (w : JValue) (h : q.method = "net_version") :
    dispatch hashFn s iid q w = .ok (sendResponse s iid (net_version s)) := by
  unfold dispatch
  rw [h]
  rfl

theorem dispatch_chainId (hashFn : HashFn) (s : PState) (iid : Nat)
    (q : Payload) (w : JValue) (h : q.method = "eth_chainId") :
    dispatch hashFn s iid q w = .ok (sendResponse s iid (eth_chainId s)) := by
  unfold dispatch
  rw [h]
  rfl

/-- Running `_request` on a method whose dispatch case answers
synchronously through `sendResponse` with the locally computed value
`f state`: exactly one settlement event in the same turn, shaped by the
`wrapResult` registered for this very call. -/
theorem _request_local_run (hashFn : HashFn) (st : PState) (p : Payload)
    (w : JValue) (f : PState → JValue)
    (hd : ∀ s iid q, q.method = p.method →
      dispatch hashFn s iid q w = .ok (sendResponse s iid (f s))) :
    (_request hashFn st p w).snd
      = [Event.settled (st.nextId + 1)
          (.ok (if jsTruthy w
            then mkReply
              (jsOr ((mget (registerReq st p w).fst.intIds (st.nextId + 1)).getD .undefined)
                (.num (Int.ofNat (st.nextId + 1))))
              (f (registerReq st p w).fst)
            else f (registerReq st p w).fst))] := by
  obtain ⟨hiid, hnext, hcb, hwr, hsess, hm, hpar, hpt⟩ := registerReq_shape st w p
  unfold _request
  dsimp only
  rw [hd _ _ _ hm]
  dsimp only
  rw [hiid]
  obtain ⟨hev, _, _⟩ := sendResponse_found (registerReq st p w).fst (st.nextId + 1)
    (f (registerReq st p w).fst) (st.nextId + 1)
    (by rw [hcb]; exact mget_set_self _ _ _)
  rw [hev, hwr, mget_set_self]
  rfl

theorem _request_session (hashFn : HashFn) (st : PState) (p : Payload)
    (w : JValue) : sessionEq (_request hashFn st p w).fst st := by
  unfold _request
  have hreg := (registerReq_shape st w p).2.2.2.2.1
  cases hd : dispatch hashFn (registerReq st p w).fst (registerReq st p w).snd.fst
      (registerReq st p w).snd.snd w with
  | ok out =>
    simp only [hd]
    exact sessionEq_trans (dispatch_ok_session hd) hreg
  | error e =>
    simp only [hd]
    exact hreg

end V1

namespace V0

theorem sendError_session0 (st : PState) (id : Nat) (e : JsError) :
    sessionEq (sendError st id e).fst st := by
  unfold sendError
  cases mget st.callbacks id <;> exact sessionEq_refl _

theorem postMessage_session0 (st : PState) (h : String) (id : Nat) (d : JValue) :
    sessionEq (postMessage st h id d).fst st := by
  unfold postMessage
  split
  · exact sessionEq_refl _
  · exact sendError_session0 st id _

theorem post_ok0 {st : PState} {iid : Nat} {x : Except JsError (String × JValue)}
    {out : PState × List Event} (h : post st iid x = .ok out) :
    ∃ nd, x = .ok nd ∧ out = postMessage st nd.fst iid nd.snd := by
  cases x with
  | error e => simp [post, Except.map] at h
  | ok nd =>
    refine ⟨nd, rfl, ?_⟩
    simpa [post, Except.map] using h.symm

theorem sendResponse_ok_session {st : PState} {id : Nat} {r : JValue}
    {out : PState × List Event} (h : sendResponse st id r = .ok out) :
    sessionEq out.fst st := by
  have hp := tryPopId_session st id
  unfold sendResponse at h
  cases he : isEnvelope r with
  | error e =>
    rw [he] at h
    exact absurd h (by simp [Bind.bind, Except.bind])
  | ok u =>
    rw [he] at h
    dsimp only [Bind.bind, Except.bind] at h
    split at h
    · exact (Except.ok.inj h) ▸ hp
    · exact (Except.ok.inj h) ▸ hp

theorem dispatch_ok_session0 {st : PState} {iid : Nat}
    {p : Payload} {w : JValue} {out : PState × List Event}
    (h : dispatch st iid p w = .ok out) : sessionEq out.fst st := by
  unfold dispatch at h
  split at h
  case _ => exact sendResponse_ok_session h
  case _ => exact sendResponse_ok_session h
  case _ => exact sendResponse_ok_session h
  case _ => exact sendResponse_ok_session h
  case _ =>
    obtain ⟨nd, _, ho⟩ := post_ok0 h
    exact ho ▸ postMessage_session0 st nd.fst iid nd.snd
  case _ =>
    obtain ⟨nd, _, ho⟩ := post_ok0 h
    exact ho ▸ postMessage_session0 st nd.fst iid nd.snd
  case _ =>
    obtain ⟨nd, _, ho⟩ := post_ok0 h
    exact ho ▸ postMessage_session0 st nd.fst iid nd.snd
  case _ =>
    obtain ⟨nd, _, ho⟩ := post_ok0 h
    exact ho ▸ postMessage_session0 st nd.fst iid nd.snd
  case _ =>
    obtain ⟨nd, _, ho⟩ := post_ok0 h
    exact ho ▸ postMessage_session0 st nd.fst iid nd.snd
  case _ =>
    obtain ⟨nd, _, ho⟩ := post_ok0 h
    exact ho ▸ postMessage_session0 st nd.fst iid nd.snd
  case _ => exact (Except.ok.inj h) ▸ postMessage_session0 st _ iid _
  case _ =>
    obtain ⟨nd, _, ho⟩ := post_ok0 h
    exact ho ▸ postMessage_session0 st nd.fst iid nd.snd
  case _ =>
    obtain ⟨nd, _, ho⟩ := post_ok0 h
    exact ho ▸ postMessage_session0 st nd.fst iid nd.snd
  case _ => simp at h
  case _ => simp at h
  case _ => simp at h
  case _ => simp at h
  case _ => simp at h
  case _ => exact (Except.ok.inj h) ▸ sessionEq_refl _

theorem _request_session0 (st : PState) (p : Payload) (w : JValue) :
    sessionEq (_request st p w).fst st := by
  unfold _request
  have hreg := (registerReq_shape st w p).2.2.2.2.1
  cases hd : dispatch (registerReq st p w).fst (registerReq st p w).snd.fst
      (registerReq st p w).snd.snd w with
  | ok out =>
    simp only [hd]
    exact sessionEq_trans (dispatch_ok_session0 hd) hreg
  | error e =>
    simp only [hd]
    exact hreg

end V0

end TW

/-! ## Claim theorems

Each claim of the specification is settled below against the embedded
engine.  Concrete runs use the fixtures that follow. -/

open TW

/-- Trivial typed-data hash instantiation for concrete runs (the hash
function is external and opaque to the engine). -/
def hfX : HashFn := fun _ _ => ""

/-- Payload constructor for concrete runs. -/
def mkPayload (id : JValue) (method : String) (params : JValue) : Payload :=
  { id := id, jsonrpc := .undefined, method := method, params := params, ptype := .undefined }

/-- Configuration `{chainId: 1}` with no address (not ready). -/
def cfgChain1 : Config := { address := none, chainId := some 1, isProxyRPC := false }

/-- A ready configuration: address present, `{chainId: 1}`. -/
def cfgReady : Config := { address := some "0xAbC", chainId := some 1, isProxyRPC := false }

/-- C5: every `eth_accounts`/`eth_coinbase`/`net_version`/`eth_chainId`
call settles within the same synchronous turn with exactly one
settlement event — so no Host-Bridge message and no upstream-RPC
delegation — and, through the public `request` entry point, resolves to
`[address]` (or `[]` when the address is empty), the address, the
decimal network string and the hex chain id respectively, all read from
the current session state; in particular with configuration
`{chainId: 1}`, `request({method: "eth_chainId"})` resolves to `"0x1"`. -/
theorem C5_local_methods_settle_locally :
    (∀ hashFn st p w,
      (p.method = "eth_accounts" ∨ p.method = "eth_coinbase" ∨
       p.method = "net_version" ∨ p.method = "eth_chainId") →
      ∃ out, (V1._request hashFn st p w).snd = [Event.settled (st.nextId + 1) out]) ∧
    (∀ hashFn st p, p.method = "eth_accounts" →
      (V1.request hashFn st p).snd
        = [Event.settled (st.nextId + 1)
            (.ok (if st.address != "" then .arr [.str st.address] else .arr []))]) ∧
    (∀ hashFn st p, p.method = "eth_coinbase" →
      (V1.request hashFn st p).snd
        = [Event.settled (st.nextId + 1) (.ok (.str st.address))]) ∧
    (∀ hashFn st p, p.method = "net_version" →
      (V1.request hashFn st p).snd
        = [Event.settled (st.nextId + 1) (.ok (.str st.networkVersion))]) ∧
    (∀ hashFn st p, p.method = "eth_chainId" →
      (V1.request hashFn st p).snd
        = [Event.settled (st.nextId + 1) (.ok st.chainId)]) ∧
    (V1.request hfX (V1.mkProvider cfgChain1) (mkPayload .undefined "eth_chainId" .undefined)).snd
      = [Event.settled 1 (.ok (.str "0x1"))] := by
  refine ⟨?_, ?_, ?_, ?_, ?_, ?_⟩
  · intro hashFn st p w h
    rcases h with h | h | h | h
    · exact ⟨_, V1._request_local_run hashFn st p w eth_accounts
        (fun s i q hq => V1.dispatch_accounts hashFn s i q w (hq.trans h))⟩
    · exact ⟨_, V1._request_local_run hashFn st p w eth_coinbase
        (fun s i q hq => V1.dispatch_coinbase hashFn s i q w (hq.trans h))⟩
    · exact ⟨_, V1._request_local_run hashFn st p w net_version
        (fun s i q hq => V1.dispatch_netVersion hashFn s i q w (hq.trans h))⟩
    · exact ⟨_, V1._request_local_run hashFn st p w eth_chainId
        (fun s i q hq => V1.dispatch_chainId hashFn s i q w (hq.trans h))⟩
  · intro hashFn st p h
    have hrun := V1._request_local_run hashFn st p (.bool false) eth_accounts
      (fun s i q hq => V1.dispatch_accounts hashFn s i q (.bool false) (hq.trans h))
    have haddr : (registerReq st p (.bool false)).fst.address = st.address :=
      ((registerReq_shape st (.bool false) p).2.2.2.2.1).1
    unfold V1.request
    rw [hrun]
    simp only [jsTruthy, Bool.false_eq_true, if_false, eth_accounts, haddr]
  · intro hashFn st p h
    have hrun := V1._request_local_run hashFn st p (.bool false) eth_coinbase
      (fun s i q hq => V1.dispatch_coinbase hashFn s i q (.bool false) (hq.trans h))
    have haddr : (registerReq st p (.bool false)).fst.address = st.address :=
      ((registerReq_shape st (.bool false) p).2.2.2.2.1).1
    unfold V1.request
    rw [hrun]
    simp only [jsTruthy, Bool.false_eq_true, if_false, eth_coinbase, haddr]
  · intro hashFn st p h
    have hrun := V1._request_local_run hashFn st p (.bool false) net_version
      (fun s i q hq => V1.dispatch_netVersion hashFn s i q (.bool false) (hq.trans h))
    have hnv : (registerReq st p (.bool false)).fst.networkVersion = st.networkVersion :=
      ((registerReq_shape st (.bool false) p).2.2.2.2.1).2.2.2.2.1
    unfold V1.request
    rw [hrun]
    simp only [jsTruthy, Bool.false_eq_true, if_false, net_version, hnv]
  · intro hashFn st p h
    have hrun := V1._request_local_run hashFn st p (.bool false) eth_chainId
      (fun s i q hq => V1.dispatch_chainId hashFn s i q (.bool false) (hq.trans h))
    have hci : (registerReq st p (.bool false)).fst.chainId = st.chainId :=
      ((registerReq_shape st (.bool false) p).2.2.2.2.1).2.2.2.1
    unfold V1.request
    rw [hrun]
    simp only [jsTruthy, Bool.false_eq_true, if_false, eth_chainId, hci]
  · rfl

/-- C5 witness: the theorem applied at the concrete Scenario-A input. -/
theorem C5_witness :
    (V1.request hfX (V1.mkProvider cfgChain1) (mkPayload .undefined "eth_chainId" .undefined)).snd
      = [Event.settled 1 (.ok (.str "0x1"))] := by
  have h := C5_local_methods_settle_locally.2.2.2.2.1 hfX (V1.mkProvider cfgChain1)
    (mkPayload .undefined "eth_chainId" .undefined) rfl
  exact h

/-- Is any host-channel message among the events? -/
def hasHostMsg (evs : List Event) : Bool :=
  evs.any fun e =>
    match e with
    | .hostMsg _ _ _ => true
    | _ => false

/-- The host-bridge action names reachable in the V0 variant (the
handlers its `_request` switch can post). -/
def part000Handlers : List String :=
  ["signPersonalMessage", "signMessage", "ecRecover", "signTypedMessage",
   "signTransaction", "requestAccounts", "watchAsset", "addEthereumChain"]

theorem sendErrorV1_noHost (st : PState) (id : Nat) (e : JsError) :
    hasHostMsg (V1.sendError st id e).snd = false := by
  unfold V1.sendError
  cases mget st.callbacks id <;> rfl

theorem sendErrorV0_noHost (st : PState) (id : Nat) (e : JsError) :
    hasHostMsg (V0.sendError st id e).snd = false := by
  unfold V0.sendError
  cases mget st.callbacks id <;> rfl

/-- C3: the readiness gate.  (1) V1's `postMessage` delivers the message
whenever the provider is ready or the action is one of the five
allow-listed bootstrap actions, regardless of readiness; (2) outside the
allow-list with `ready = false` the call is routed to `sendError` with
`ProviderRpcError 4100 "provider is not ready"` and no host message is
emitted; (3) a gated call that went through `_request` (so its callback
is registered) is rejected with exactly that error as its only event —
e.g. any `eth_sendTransaction` with array params; (4) V0's `postMessage`
agrees with the five-action allow-list on every action name V0 can
actually post. -/
theorem C3_readiness_gate :
    (∀ st h id d,
      (st.ready = true ∨ h = "requestAccounts" ∨ h = "addEthereumChain" ∨
       h = "switchEthereumChain" ∨ h = "getPermissions" ∨ h = "requestPermissions") →
      V1.postMessage st h id d = (st, [Event.hostMsg h id d])) ∧
    (∀ st h id d, st.ready = false →
      h ≠ "requestAccounts" → h ≠ "addEthereumChain" → h ≠ "switchEthereumChain" →
      h ≠ "getPermissions" → h ≠ "requestPermissions" →
      V1.postMessage st h id d = V1.sendError st id (.rpc 4100 "provider is not ready") ∧
      hasHostMsg (V1.postMessage st h id d).snd = false) ∧
    (∀ hashFn st p w xs, st.ready = false → p.method = "eth_sendTransaction" →
      p.params = .arr xs →
      (V1._request hashFn st p w).snd
        = [Event.settled (st.nextId + 1) (.error (.rpc 4100 "provider is not ready"))]) ∧
    (∀ h, h ∈ part000Handlers → ∀ st id d, st.ready = false →
      (hasHostMsg (V0.postMessage st h id d).snd = true ↔
       (h = "requestAccounts" ∨ h = "addEthereumChain" ∨ h = "switchEthereumChain" ∨
        h = "getPermissions" ∨ h = "requestPermissions"))) := by
  refine ⟨?_, ?_, ?_, ?_⟩
  · intro st h id d hg
    unfold V1.postMessage
    rcases hg with hg | hg | hg | hg | hg | hg
    · simp [hg]
    · subst hg; simp
    · subst hg; simp
    · subst hg; simp
    · subst hg; simp
    · subst hg; simp
  · intro st h id d hr h1 h2 h3 h4 h5
    have hgate : (st.ready || h == "requestAccounts" || h == "addEthereumChain" ||
        h == "switchEthereumChain" || h == "getPermissions" ||
        h == "requestPermissions") = false := by
      simp [hr, h1, h2, h3, h4, h5]
    constructor
    · unfold V1.postMessage
      rw [hgate]
      rfl
    · have : V1.postMessage st h id d = V1.sendError st id (.rpc 4100 "provider is not ready") := by
        unfold V1.postMessage
        rw [hgate]
        rfl
      rw [this]
      exact sendErrorV1_noHost st id _
  · intro hashFn st p w xs hr hm hp
    obtain ⟨hiid, hnext, hcb, hwr, hsess, hmeth, hpar, hpt⟩ := registerReq_shape st w p
    unfold V1._request
    dsimp only
    have hd : V1.dispatch hashFn (registerReq st p w).fst (registerReq st p w).snd.fst
        (registerReq st p w).snd.snd w
        = V1.post (registerReq st p w).fst (registerReq st p w).snd.fst
            (V1.eth_sendTransaction (registerReq st p w).snd.snd) := by
      unfold V1.dispatch
      rw [hmeth, hm]
      rfl
    rw [hd]
    have htx : V1.eth_sendTransaction (registerReq st p w).snd.snd
        = .ok ("signTransaction", xs.getD 0 .undefined) := by
      unfold V1.eth_sendTransaction
      rw [hpar, hp]
      rfl
    rw [htx]
    have hready : (registerReq st p w).fst.ready = false := hsess.2.2.1.trans hr
    have hpost : V1.postMessage (registerReq st p w).fst "signTransaction"
        (registerReq st p w).snd.fst (xs.getD 0 .undefined)
        = V1.sendError (registerReq st p w).fst (registerReq st p w).snd.fst
            (.rpc 4100 "provider is not ready") := by
      unfold V1.postMessage
      rw [hready]
      rfl
    have hse := V1.sendError_found (registerReq st p w).fst (registerReq st p w).snd.fst
      (.rpc 4100 "provider is not ready") (registerReq st p w).snd.fst
      (by rw [hcb, hiid]; exact mget_set_self _ _ _)
    dsimp only [V1.post, Except.map]
    rw [hpost, hse, hiid]
  · intro h hmem st id d hr
    fin_cases hmem
    · have : V0.postMessage st "signPersonalMessage" id d
          = V0.sendError st id (.rpc 4100 "provider is not ready") := by
        unfold V0.postMessage
        rw [hr]
        rfl
      rw [this]
      simp [sendErrorV0_noHost st id _]
    · have : V0.postMessage st "signMessage" id d
          = V0.sendError st id (.rpc 4100 "provider is not ready") := by
        unfold V0.postMessage
        rw [hr]
        rfl
      rw [this]
      simp [sendErrorV0_noHost st id _]
    · have : V0.postMessage st "ecRecover" id d
          = V0.sendError st id (.rpc 4100 "provider is not ready") := by
        unfold V0.postMessage
        rw [hr]
        rfl
      rw [this]
      simp [sendErrorV0_noHost st id _]
    · have : V0.postMessage st "signTypedMessage" id d
          = V0.sendError st id (.rpc 4100 "provider is not ready") := by
        unfold V0.postMessage
        rw [hr]
        rfl
      rw [this]
      simp [sendErrorV0_noHost st id _]
    · have : V0.postMessage st "signTransaction" id d
          = V0.sendError st id (.rpc 4100 "provider is not ready") := by
        unfold V0.postMessage
        rw [hr]
        rfl
      rw [this]
      simp [sendErrorV0_noHost st id _]
    · have : V0.postMessage st "requestAccounts" id d
          = (st, [Event.hostMsg "requestAccounts" id d]) := by
        unfold V0.postMessage
        rw [hr]
        rfl
      rw [this]
      simp [hasHostMsg]
    · have : V0.postMessage st "watchAsset" id d
          = V0.sendError st id (.rpc 4100 "provider is not ready") := by
        unfold V0.postMessage
        rw [hr]
        rfl
      rw [this]
      simp [sendErrorV0_noHost st id _]
    · have : V0.postMessage st "addEthereumChain" id d
          = (st, [Event.hostMsg "addEthereumChain" id d]) := by
        unfold V0.postMessage
        rw [hr]
        rfl
      rw [this]
      simp [hasHostMsg]

/-- C3 witness: Scenario C — `eth_sendTransaction` while not ready is
rejected with code 4100 and no host message; `eth_requestAccounts` posts
even when not ready. -/
theorem C3_witness :
    (V1._request hfX (V1.mkProvider cfgChain1)
        (mkPayload .undefined "eth_sendTransaction" (.arr [.obj []])) (.bool true)).snd
      = [Event.settled 1 (.error (.rpc 4100 "provider is not ready"))] ∧
    V1.postMessage (V1.mkProvider cfgChain1) "requestAccounts" 9 (.obj [])
      = (V1.mkProvider cfgChain1, [Event.hostMsg "requestAccounts" 9 (.obj [])]) := by
  constructor
  · exact C3_readiness_gate.2.2.1 hfX (V1.mkProvider cfgChain1)
      (mkPayload .undefined "eth_sendTransaction" (.arr [.obj []])) (.bool true)
      [.obj []] rfl rfl rfl
  · exact C3_readiness_gate.1 (V1.mkProvider cfgChain1) "requestAccounts" 9 (.obj [])
      (Or.inr (Or.inl rfl))

theorem readyIffNonempty (x : Option String) :
    (x.getD "" != "") = true ↔ Utils.toLowerStr (x.getD "") ≠ "" := by
  rw [bne_iff_ne]
  exact (not_congr (toLowerStr_eq_empty_iff (x.getD ""))).symm

/-- C9: after construction and after every `setConfig`/`setAddress`, the
address field is a lowercase string — empty when no address was supplied
— and `ready` holds exactly when the address is non-empty; and no other
engine operation (`_request`, `sendResponse`, `sendError`, `postMessage`,
in either variant) mutates the session-state fields. -/
theorem C9_session_state_invariant :
    (∀ st a,
      Utils.toLowerStr (V1.setAddress st a).address = (V1.setAddress st a).address ∧
      ((V1.setAddress st a).ready = true ↔ (V1.setAddress st a).address ≠ "") ∧
      (a = none → (V1.setAddress st a).address = "")) ∧
    (∀ st c,
      Utils.toLowerStr (V1.setConfig st c).address = (V1.setConfig st c).address ∧
      ((V1.setConfig st c).ready = true ↔ (V1.setConfig st c).address ≠ "")) ∧
    (∀ c,
      Utils.toLowerStr (V1.mkProvider c).address = (V1.mkProvider c).address ∧
      ((V1.mkProvider c).ready = true ↔ (V1.mkProvider c).address ≠ "")) ∧
    (∀ st a,
      Utils.toLowerStr (V0.setAddress st a).address = (V0.setAddress st a).address ∧
      ((V0.setAddress st a).ready = true ↔ (V0.setAddress st a).address ≠ "") ∧
      (a = none → (V0.setAddress st a).address = "")) ∧
    (∀ c,
      Utils.toLowerStr (V0.mkProvider c).address = (V0.mkProvider c).address ∧
      ((V0.mkProvider c).ready = true ↔ (V0.mkProvider c).address ≠ "")) ∧
    (∀ hashFn st p w, sessionEq (V1._request hashFn st p w).fst st) ∧
    (∀ st id r, sessionEq (V1.sendResponse st id r).fst st) ∧
    (∀ st id e, sessionEq (V1.sendError st id e).fst st) ∧
    (∀ st h id d, sessionEq (V1.postMessage st h id d).fst st) ∧
    (∀ st p w, sessionEq (V0._request st p w).fst st) ∧
    (∀ st h id d, sessionEq (V0.postMessage st h id d).fst st) ∧
    (∀ st id r out, V0.sendResponse st id r = .ok out → sessionEq out.fst st) := by
  refine ⟨?_, ?_, ?_, ?_, ?_, V1._request_session, V1.sendResponse_session,
    V1.sendError_session, V1.postMessage_session, V0._request_session0,
    V0.postMessage_session0, ?_⟩
  · intro st a
    refine ⟨toLowerStr_idem _, readyIffNonempty a, ?_⟩
    intro ha
    rw [ha]
    rfl
  · intro st c
    exact ⟨toLowerStr_idem _, readyIffNonempty c.address⟩
  · intro c
    exact ⟨toLowerStr_idem _, readyIffNonempty c.address⟩
  · intro st a
    refine ⟨toLowerStr_idem _, readyIffNonempty a, ?_⟩
    intro ha
    rw [ha]
    rfl
  · intro c
    exact ⟨toLowerStr_idem _, readyIffNonempty c.address⟩
  · intro st id r out h
    exact V0.sendResponse_ok_session h

/-- C9 witness: concrete applications of the invariant — an uppercase
address supplied to `setAddress` is stored lowercased with `ready` set,
an absent address gives the empty address, and an orphan V0
`sendResponse` leaves the session state intact. -/
theorem C9_witness :
    ((V1.setAddress (V1.mkProvider cfgChain1) (some "0xDEF")).ready = true ↔
      (V1.setAddress (V1.mkProvider cfgChain1) (some "0xDEF")).address ≠ "") ∧
    (V1.setAddress (V1.mkProvider cfgChain1) none).address = "" ∧
    sessionEq (V0.mkProvider cfgChain1) (V0.mkProvider cfgChain1) := by
  refine ⟨(C9_session_state_invariant.1 (V1.mkProvider cfgChain1) (some "0xDEF")).2.1,
    (C9_session_state_invariant.1 (V1.mkProvider cfgChain1) none).2.2 rfl, ?_⟩
  have h := C9_session_state_invariant.2.2.2.2.2.2.2.2.2.2.2
    (V0.mkProvider cfgChain1) 5 (.str "x") (V0.mkProvider cfgChain1, [Event.orphan 5]) rfl
  exact h

/-- A registered, ready provider with one bridge-dispatched call in
flight: external id `7`, internal id `1` (used to exercise
`sendResponse` deliveries). -/
def stInFlight : PState :=
  (V1._request hfX (V1.mkProvider cfgReady)
    (mkPayload (.num 7) "eth_requestAccounts" (.arr [])) (.bool true)).fst

/-- C6 counterexample: the raw result
`{jsonrpc: "2.0", result: 0}` is an object carrying both a
protocol-version marker and a `result` field, yet `sendResponse` does
not unwrap it — the reply's `result` is the whole object, not the inner
`0` — because the guard tests the fields for truthiness, not presence,
and `0` is falsy. -/
theorem C6_counterexample :
    (V1.sendResponse stInFlight 1
        (.obj [("jsonrpc", .str "2.0"), ("result", .num 0)])).snd
      = [Event.settled 1 (.ok (.obj [("jsonrpc", .str "2.0"), ("id", .num 7),
          ("result", .obj [("jsonrpc", .str "2.0"), ("result", .num 0)])]))] ∧
    JValue.obj [("jsonrpc", .str "2.0"), ("result", .num 0)] ≠ JValue.num 0 := by
  constructor
  · rfl
  · intro h
    cases h

/-- C6 (amended): `sendResponse` unwraps the raw result exactly when it
is a non-`null`/non-`undefined` object whose `jsonrpc` **and** `result`
fields are both truthy (an envelope with a falsy inner result such as
`0` is passed through whole); the reply envelope is
`{jsonrpc: "2.0", id: resolved original id, result: possibly-unwrapped}`
and is delivered when the stored `wrapResult` is truthy, while the raw
(un-enveloped, never unwrapped) result value is delivered when it is
falsy. -/
theorem C6_response_shaping :
    (∀ result, V1.isEnvelope result = true ↔
      (typeofObject result = true ∧ result ≠ .null ∧
       jsTruthy (getField result "jsonrpc") = true ∧
       jsTruthy (getField result "result") = true)) ∧
    (∀ origin result, V1.mkReply origin result
      = .obj [("jsonrpc", .str "2.0"), ("id", origin),
              ("result", if V1.isEnvelope result then getField result "result"
                         else result)]) ∧
    (∀ st id result pid, mget st.callbacks id = some pid →
      (V1.sendResponse st id result).snd
        = [Event.settled pid (.ok
            (if jsTruthy ((mget st.wrapResults id).getD .undefined)
             then V1.mkReply (jsOr ((mget st.intIds id).getD .undefined)
                    (.num (Int.ofNat id))) result
             else result))]) := by
  refine ⟨?_, fun _ _ => rfl, ?_⟩
  · intro result
    cases result <;> simp [V1.isEnvelope, typeofObject]
  · intro st id result pid hc
    exact (V1.sendResponse_found st id result pid hc).1

/-- C6 witness: the amended theorem applied at the in-flight fixture —
a plain string settles as the envelope `{jsonrpc, id: 7, result}`, and a
truthily-enveloped object is unwrapped. -/
theorem C6_witness :
    (V1.sendResponse stInFlight 1 (.str "0xsig")).snd
      = [Event.settled 1 (.ok (.obj [("jsonrpc", .str "2.0"), ("id", .num 7),
          ("result", .str "0xsig")]))] ∧
    V1.isEnvelope (.obj [("jsonrpc", .str "2.0"), ("result", .str "0x2a")]) = true := by
  constructor
  · have h := C6_response_shaping.2.2 stInFlight 1 (.str "0xsig") 1 rfl
    exact h
  · exact (C6_response_shaping.1 _).mpr (by refine ⟨rfl, ?_, rfl, rfl⟩; intro h; cases h)

/-- C2: settlement of an unknown or already-settled id.  In V1 the claim
holds: a `sendResponse` with no registered callback produces only the
orphan diagnostic, leaves `callbacks` and `wrapResults` untouched and
throws nothing, and a `sendError` with no callback is a pure no-op.  In
V0 the claim fails on `null` results: `typeof null === "object"`, the
guard lacks V1's `result != null` check, and `sendResponse(id, null)`
throws a `TypeError` reading `null.jsonrpc` — for every id, registered
or not. -/
theorem C2_duplicate_settlement :
    (∀ st id r, mget st.callbacks id = none →
      (V1.sendResponse st id r).snd = [Event.orphan id] ∧
      (V1.sendResponse st id r).fst.callbacks = st.callbacks ∧
      (V1.sendResponse st id r).fst.wrapResults = st.wrapResults) ∧
    (∀ st id e, mget st.callbacks id = none →
      V1.sendError st id e = (st, [])) ∧
    (∀ st id, V0.sendResponse st id .null
      = .error (.type "Cannot read properties of null (reading 'jsonrpc')")) := by
  refine ⟨?_, ?_, ?_⟩
  · intro st id r hc
    exact V1.sendResponse_orphan st id r hc
  · intro st id e hc
    exact V1.sendError_missing st id e hc
  · intro st id
    rfl

/-- C2 witness: the theorem at concrete inputs — an unregistered id with
a `null` result is a harmless orphan in V1 and a thrown `TypeError` in
V0. -/
theorem C2_witness :
    (V1.sendResponse (V1.mkProvider cfgReady) 42 .null).snd = [Event.orphan 42] ∧
    V1.sendError (V1.mkProvider cfgReady) 42 (.rpc 4100 "provider is not ready")
      = (V1.mkProvider cfgReady, []) ∧
    V0.sendResponse (V0.mkProvider cfgReady) 42 .null
      = .error (.type "Cannot read properties of null (reading 'jsonrpc')") := by
  exact ⟨(C2_duplicate_settlement.1 (V1.mkProvider cfgReady) 42 .null rfl).1,
    C2_duplicate_settlement.2.1 (V1.mkProvider cfgReady) 42 _ rfl,
    C2_duplicate_settlement.2.2 (V0.mkProvider cfgReady) 42⟩

/-- C4 counterexample: after an `eth_newFilter` call is rejected, the
Pending Call Registry still holds both entries for the request's
internal id — the `throw` inside the Promise executor bypasses the
cleanup, so the registration leaks, contradicting the claim that the
maps hold no entry for that id. -/
theorem C4_counterexample :
    (V1._request hfX (V1.mkProvider cfgReady)
        (mkPayload .undefined "eth_newFilter" (.arr [])) (.bool true)).snd
      = [Event.settled 1 (.error (.rpc 4200
          "MathWallet does not support calling eth_newFilter. Please use your own solution"))] ∧
    mget (V1._request hfX (V1.mkProvider cfgReady)
        (mkPayload .undefined "eth_newFilter" (.arr [])) (.bool true)).fst.callbacks 1
      = some 1 ∧
    mget (V1._request hfX (V1.mkProvider cfgReady)
        (mkPayload .undefined "eth_newFilter" (.arr [])) (.bool true)).fst.wrapResults 1
      = some (.bool true) := by
  exact ⟨rfl, rfl, rfl⟩

/-- C4 (amended): every filter/subscription method rejects synchronously
with `ProviderRpcError 4200` as the request's only event — so neither
the Host Bridge nor the Upstream RPC client is contacted — but the
`callbacks` and `wrapResults` entries registered for the request's id
remain in the maps afterwards (the throw inside the executor skips any
cleanup; the entries leak). -/
theorem C4_filter_methods_reject :
    ∀ hashFn st p w,
      (p.method = "eth_newFilter" ∨ p.method = "eth_newBlockFilter" ∨
       p.method = "eth_newPendingTransactionFilter" ∨
       p.method = "eth_uninstallFilter" ∨ p.method = "eth_subscribe") →
      (V1._request hashFn st p w).snd
        = [Event.settled (st.nextId + 1)
            (.error (.rpc 4200 (V1.unsupportedMsg p.method)))] ∧
      mget (V1._request hashFn st p w).fst.callbacks (st.nextId + 1)
        = some (st.nextId + 1) ∧
      mget (V1._request hashFn st p w).fst.wrapResults (st.nextId + 1) = some w := by
  intro hashFn st p w hm
  obtain ⟨hiid, hnext, hcb, hwr, hsess, hmeth, hpar, hpt⟩ := registerReq_shape st w p
  have hd : V1.dispatch hashFn (registerReq st p w).fst (registerReq st p w).snd.fst
      (registerReq st p w).snd.snd w
      = .error (.rpc 4200 (V1.unsupportedMsg p.method)) := by
    rcases hm with h | h | h | h | h <;>
      (unfold V1.dispatch; rw [hmeth, h]; rfl)
  unfold V1._request
  dsimp only
  rw [hd]
  dsimp only
  rw [hiid, hcb, hwr]
  exact ⟨rfl, mget_set_self _ _ _, mget_set_self _ _ _⟩

/-- C4 witness: the amended theorem at the concrete `eth_subscribe`
input. -/
theorem C4_witness :
    (V1._request hfX (V1.mkProvider cfgReady)
        (mkPayload .undefined "eth_subscribe" (.arr [])) (.bool false)).snd
      = [Event.settled 1 (.error (.rpc 4200
          "MathWallet does not support calling eth_subscribe. Please use your own solution"))] ∧
    mget (V1._request hfX (V1.mkProvider cfgReady)
        (mkPayload .undefined "eth_subscribe" (.arr [])) (.bool false)).fst.callbacks 1
      = some 1 := by
  have h := C4_filter_methods_reject hfX (V1.mkProvider cfgReady)
    (mkPayload .undefined "eth_subscribe" (.arr [])) (.bool false)
    (Or.inr (Or.inr (Or.inr (Or.inr rfl))))
  exact ⟨h.1, h.2.1⟩

theorem registerReq_intIds_present (st : PState) (w : JValue) (p : Payload)
    (h : p.id ≠ .undefined) :
    (registerReq st p w).fst.intIds = mset st.intIds (st.nextId + 1) p.id := by
  rw [registerReq_present st w p h]

theorem registerReq_intIds_undef (st : PState) (w : JValue) (p : Payload)
    (h : p.id = .undefined) :
    (registerReq st p w).fst.intIds = st.intIds := by
  rw [registerReq_undef st w p h]

/-- An `eth_requestAccounts` call runs to the host post unconditionally
(the action is allow-listed), leaving exactly the registered state. -/
theorem requestAccounts_run (hashFn : HashFn) (st : PState) (p : Payload)
    (w : JValue) (h : p.method = "eth_requestAccounts") :
    V1._request hashFn st p w
      = ((registerReq st p w).fst,
         [Event.hostMsg "requestAccounts" (st.nextId + 1) (.obj [])]) := by
  obtain ⟨hiid, hnext, hcb, hwr, hsess, hmeth, hpar, hpt⟩ := registerReq_shape st w p
  unfold V1._request
  dsimp only
  have hd : V1.dispatch hashFn (registerReq st p w).fst (registerReq st p w).snd.fst
      (registerReq st p w).snd.snd w
      = .ok (V1.postMessage (registerReq st p w).fst "requestAccounts"
          (registerReq st p w).snd.fst (.obj [])) := by
    unfold V1.dispatch
    rw [hmeth, h]
    rfl
  rw [hd]
  dsimp only
  have hpost : V1.postMessage (registerReq st p w).fst "requestAccounts"
      (registerReq st p w).snd.fst (.obj [])
      = ((registerReq st p w).fst,
         [Event.hostMsg "requestAccounts" (registerReq st p w).snd.fst (.obj [])]) := by
    unfold V1.postMessage
    simp
  rw [hpost, hiid]

/-- C1 counterexample: a caller-supplied external id `0` (numeric) does
not round-trip.  The correlator records the entry `{1 → 0}` per the
spec, but `sendResponse`'s `tryPopId(id) || id` discards the falsy `0`
and the reply carries the internal id `1` instead of the caller's `0`. -/
theorem C1_counterexample :
    (V1.sendResponse
        (V1._request hfX (V1.mkProvider cfgReady)
          (mkPayload (.num 0) "eth_requestAccounts" (.arr [])) (.bool true)).fst
        1 (.str "res")).snd
      = [Event.settled 1 (.ok (.obj [("jsonrpc", .str "2.0"), ("id", .num 1),
          ("result", .str "res")]))] ∧
    JValue.num 1 ≠ JValue.num 0 := by
  constructor
  · rfl
  · intro h
    injection h with h2
    exact absurd h2 (by decide)

/-- C1 (amended): the id round-trip holds for every **truthy** external
id: the reply's `id` equals the original external id, two concurrent
calls supplying the same external id are remapped to distinct internal
ids and settle independently, each with its own result and the shared
original id; `sendResponse` on an internal id with no correlator entry
uses the internal id itself as the reply id.  A **falsy but present**
external id (such as `0`) is the exception the code carves out: its
correlation entry is recorded, but the `|| id` fallback drops it and
the reply carries the internal id. -/
theorem C1_id_roundtrip :
    (∀ hashFn st e w res, jsTruthy e = true → jsTruthy w = true →
      (V1.sendResponse
          (V1._request hashFn st (mkPayload e "eth_requestAccounts" (.arr [])) w).fst
          (st.nextId + 1) res).snd
        = [Event.settled (st.nextId + 1) (.ok (V1.mkReply e res))]) ∧
    (∀ hashFn st e w r1 r2, jsTruthy e = true → jsTruthy w = true →
      (V1.sendResponse
          (V1._request hashFn
            (V1._request hashFn st (mkPayload e "eth_requestAccounts" (.arr [])) w).fst
            (mkPayload e "eth_requestAccounts" (.arr [])) w).fst
          (st.nextId + 1) r1).snd
        = [Event.settled (st.nextId + 1) (.ok (V1.mkReply e r1))] ∧
      (V1.sendResponse
          (V1.sendResponse
            (V1._request hashFn
              (V1._request hashFn st (mkPayload e "eth_requestAccounts" (.arr [])) w).fst
              (mkPayload e "eth_requestAccounts" (.arr [])) w).fst
            (st.nextId + 1) r1).fst
          (st.nextId + 2) r2).snd
        = [Event.settled (st.nextId + 2) (.ok (V1.mkReply e r2))]) ∧
    (∀ st id res pid w', mget st.intIds id = none →
      mget st.callbacks id = some pid → mget st.wrapResults id = some w' →
      jsTruthy w' = true →
      (V1.sendResponse st id res).snd
        = [Event.settled pid (.ok (V1.mkReply (.num (Int.ofNat id)) res))]) ∧
    (∀ hashFn st e w res, e ≠ .undefined → jsTruthy e = false → jsTruthy w = true →
      (V1.sendResponse
          (V1._request hashFn st (mkPayload e "eth_requestAccounts" (.arr [])) w).fst
          (st.nextId + 1) res).snd
        = [Event.settled (st.nextId + 1)
            (.ok (V1.mkReply (.num (Int.ofNat (st.nextId + 1))) res))]) := by
  have hid : ∀ e ps, (mkPayload e "eth_requestAccounts" ps).id = e := fun _ _ => rfl
  refine ⟨?_, ?_, ?_, ?_⟩
  · intro hashFn st e w res he hw
    have hne : (mkPayload e "eth_requestAccounts" (.arr [])).id ≠ .undefined := by
      rw [hid]
      intro h0
      rw [h0] at he
      simp [jsTruthy] at he
    rw [requestAccounts_run hashFn st _ w rfl]
    dsimp only
    obtain ⟨hev, _, _, _⟩ := V1.sendResponse_found
      (registerReq st (mkPayload e "eth_requestAccounts" (.arr [])) w).fst
      (st.nextId + 1) res (st.nextId + 1)
      (by rw [(registerReq_shape st w _).2.2.1]; exact mget_set_self _ _ _)
    rw [hev, (registerReq_shape st w _).2.2.2.1,
      registerReq_intIds_present st w _ hne, hid, mget_set_self, mget_set_self]
    simp only [Option.getD_some, hw, if_true, jsOr, he]
  · intro hashFn st e w r1 r2 he hw
    have hne : (mkPayload e "eth_requestAccounts" (.arr [])).id ≠ .undefined := by
      rw [hid]
      intro h0
      rw [h0] at he
      simp [jsTruthy] at he
    have hn12 : st.nextId + 1 ≠ st.nextId + 2 := by omega
    have hn21 : st.nextId + 2 ≠ st.nextId + 1 := by omega
    rw [requestAccounts_run hashFn st _ w rfl]
    dsimp only
    have hnextA : (registerReq st (mkPayload e "eth_requestAccounts" (.arr [])) w).fst.nextId
        = st.nextId + 1 := (registerReq_shape st w _).2.1
    rw [requestAccounts_run hashFn _ _ w rfl]
    dsimp only
    -- components of the doubly registered state
    have hcbB : (registerReq (registerReq st (mkPayload e "eth_requestAccounts" (.arr [])) w).fst
        (mkPayload e "eth_requestAccounts" (.arr [])) w).fst.callbacks
        = mset (mset st.callbacks (st.nextId + 1) (st.nextId + 1)) (st.nextId + 2) (st.nextId + 2) := by
      rw [(registerReq_shape _ w _).2.2.1, (registerReq_shape st w _).2.2.1, hnextA]
    have hwrB : (registerReq (registerReq st (mkPayload e "eth_requestAccounts" (.arr [])) w).fst
        (mkPayload e "eth_requestAccounts" (.arr [])) w).fst.wrapResults
        = mset (mset st.wrapResults (st.nextId + 1) w) (st.nextId + 2) w := by
      rw [(registerReq_shape _ w _).2.2.2.1, (registerReq_shape st w _).2.2.2.1, hnextA]
    have hintB : (registerReq (registerReq st (mkPayload e "eth_requestAccounts" (.arr [])) w).fst
        (mkPayload e "eth_requestAccounts" (.arr [])) w).fst.intIds
        = mset (mset st.intIds (st.nextId + 1) e) (st.nextId + 2) e := by
      rw [registerReq_intIds_present _ w _ hne, registerReq_intIds_present st w _ hne,
        hid, hnextA]
    -- first settlement
    obtain ⟨hev1, hcb1, hwr1, hint1⟩ := V1.sendResponse_found
      (registerReq (registerReq st (mkPayload e "eth_requestAccounts" (.arr [])) w).fst
        (mkPayload e "eth_requestAccounts" (.arr [])) w).fst
      (st.nextId + 1) r1 (st.nextId + 1)
      (by rw [hcbB, mget_set_ne _ _ _ _ hn12]; exact mget_set_self _ _ _)
    have hintBlook : mget (registerReq (registerReq st
        (mkPayload e "eth_requestAccounts" (.arr [])) w).fst
        (mkPayload e "eth_requestAccounts" (.arr [])) w).fst.intIds (st.nextId + 1)
        = some e := by
      rw [hintB, mget_set_ne _ _ _ _ hn12]
      exact mget_set_self _ _ _
    constructor
    · rw [hev1, hwrB, mget_set_ne _ _ _ _ hn12, mget_set_self, hintBlook]
      simp only [Option.getD_some, hw, if_true, jsOr, he]
    · obtain ⟨hev2, _, _, _⟩ := V1.sendResponse_found
        (V1.sendResponse (registerReq (registerReq st
          (mkPayload e "eth_requestAccounts" (.arr [])) w).fst
          (mkPayload e "eth_requestAccounts" (.arr [])) w).fst (st.nextId + 1) r1).fst
        (st.nextId + 2) r2 (st.nextId + 2)
        (by rw [hcb1, hcbB, mget_del_ne _ _ _ hn21]; exact mget_set_self _ _ _)
      rw [hev2, hwr1, hwrB, mget_set_self, hint1,
        tryPopId_intIds_found _ _ e hintBlook, hintB,
        mget_del_ne _ _ _ hn21, mget_set_self]
      simp only [Option.getD_some, hw, if_true, jsOr, he]
  · intro st id res pid w' hint hc hwr hw
    obtain ⟨hev, _, _, _⟩ := V1.sendResponse_found st id res pid hc
    rw [hev, hwr, hint]
    simp only [Option.getD_some, Option.getD_none, hw, if_true]
    rfl
  · intro hashFn st e w res hne0 he hw
    have hne : (mkPayload e "eth_requestAccounts" (.arr [])).id ≠ .undefined := by
      rw [hid]
      exact hne0
    rw [requestAccounts_run hashFn st _ w rfl]
    dsimp only
    obtain ⟨hev, _, _, _⟩ := V1.sendResponse_found
      (registerReq st (mkPayload e "eth_requestAccounts" (.arr [])) w).fst
      (st.nextId + 1) res (st.nextId + 1)
      (by rw [(registerReq_shape st w _).2.2.1]; exact mget_set_self _ _ _)
    rw [hev, (registerReq_shape st w _).2.2.2.1,
      registerReq_intIds_present st w _ hne, hid, mget_set_self, mget_set_self]
    simp only [Option.getD_some, hw, if_true, jsOr, he]
    rfl

/-- C1 witness: the round-trip at concrete inputs — external id `"7"`
(numeric-as-string) comes back as the reply id, and two concurrent calls
both using id `1` settle independently with their own results and reply
id `1`. -/
theorem C1_witness :
    (V1.sendResponse
        (V1._request hfX (V1.mkProvider cfgReady)
          (mkPayload (.str "7") "eth_requestAccounts" (.arr [])) (.bool true)).fst
        1 (.str "resA")).snd
      = [Event.settled 1 (.ok (V1.mkReply (.str "7") (.str "resA")))] ∧
    (V1.sendResponse
        (V1.sendResponse
          (V1._request hfX
            (V1._request hfX (V1.mkProvider cfgReady)
              (mkPayload (.num 1) "eth_requestAccounts" (.arr [])) (.bool true)).fst
            (mkPayload (.num 1) "eth_requestAccounts" (.arr [])) (.bool true)).fst
          1 (.str "resA")).fst
        2 (.str "resB")).snd
      = [Event.settled 2 (.ok (V1.mkReply (.num 1) (.str "resB")))] := by
  constructor
  · exact C1_id_roundtrip.1 hfX (V1.mkProvider cfgReady) (.str "7") (.bool true)
      (.str "resA") rfl rfl
  · exact (C1_id_roundtrip.2.1 hfX (V1.mkProvider cfgReady) (.num 1) (.bool true)
      (.str "resA") (.str "resB") rfl rfl).2

theorem eth_sign_pair (st : PState) (p : Payload) (msg : String)
    (hsp : Utils.handleSignParams st.address p.params = .ok (.str msg)) :
    V1.eth_sign st p
      = .ok (if Utils.isUtf8 (Utils.messageToBufferStr msg)
             then "signPersonalMessage" else "signMessage",
             .obj [("data", .str (Utils.bufferToHexBytes (Utils.messageToBufferStr msg)))]) := by
  unfold V1.eth_sign
  rw [hsp]
  dsimp only [Bind.bind, Except.bind, Utils.messageToBuffer]
  by_cases hu : Utils.isUtf8 (Utils.messageToBufferStr msg)
  · rw [if_pos hu, if_pos hu]
  · rw [if_neg hu, if_neg hu]

theorem personal_sign_pair (st : PState) (p : Payload) (msg : String)
    (hsp : Utils.handleSignParams st.address p.params = .ok (.str msg)) :
    V1.personal_sign st p
      = .ok ("signPersonalMessage",
             .obj [("data", if (Utils.messageToBufferStr msg).length = 0
                            then .str (Utils.bufferToHexBytes (Utils.utf8Encode msg))
                            else .str msg)]) := by
  unfold V1.personal_sign
  rw [hsp]
  show (if (Utils.messageToBufferStr msg).length = 0 then
          Except.ok (("signPersonalMessage" : String),
            JValue.obj [("data", JValue.str (Utils.bufferToHexBytes (Utils.utf8Encode msg)))])
        else
          Except.ok ("signPersonalMessage", JValue.obj [("data", JValue.str msg)]))
      = _
  by_cases hz : (Utils.messageToBufferStr msg).length = 0
  · rw [if_pos hz, if_pos hz]
  · rw [if_neg hz, if_neg hz]

/-- A `_request` whose dispatch case posts the pair `(name, data)` on a
ready provider emits exactly that host message, with the registered
state carried along. -/
theorem _request_posts (hashFn : HashFn) (st : PState) (p : Payload) (w : JValue)
    (name : String) (data : JValue) (hready : st.ready = true)
    (hd : V1.dispatch hashFn (registerReq st p w).fst (registerReq st p w).snd.fst
        (registerReq st p w).snd.snd w
      = V1.post (registerReq st p w).fst (registerReq st p w).snd.fst
          (.ok (name, data))) :
    V1._request hashFn st p w
      = ((registerReq st p w).fst, [Event.hostMsg name (st.nextId + 1) data]) := by
  obtain ⟨hiid, hnext, hcb, hwr, hsess, hmeth, hpar, hpt⟩ := registerReq_shape st w p
  unfold V1._request
  dsimp only
  rw [hd]
  dsimp only [V1.post, Except.map]
  have hr : (registerReq st p w).fst.ready = true := hsess.2.2.1.trans hready
  unfold V1.postMessage
  rw [hr, hiid]
  simp

/-- C7: signing-method routing.  An `eth_sign` whose resolved message
decodes to a UTF-8-valid buffer is posted as `signPersonalMessage`,
otherwise as `signMessage`, in both cases with the buffer's hex encoding
as `data`; `personal_sign` always posts `signPersonalMessage` — no UTF-8
check — sending its message verbatim unless the decoded buffer has
length zero, in which case the message string is re-encoded to hex (the
UTF-8 bytes of the string, hex-printed). -/
theorem C7_signing_routing :
    (∀ hashFn st p w msg, st.ready = true → p.method = "eth_sign" →
      Utils.handleSignParams st.address p.params = .ok (.str msg) →
      (V1._request hashFn st p w).snd
        = [Event.hostMsg
            (if Utils.isUtf8 (Utils.messageToBufferStr msg)
             then "signPersonalMessage" else "signMessage")
            (st.nextId + 1)
            (.obj [("data", .str (Utils.bufferToHexBytes (Utils.messageToBufferStr msg)))])]) ∧
    (∀ hashFn st p w msg, st.ready = true → p.method = "personal_sign" →
      Utils.handleSignParams st.address p.params = .ok (.str msg) →
      (V1._request hashFn st p w).snd
        = [Event.hostMsg "signPersonalMessage" (st.nextId + 1)
            (.obj [("data", if (Utils.messageToBufferStr msg).length = 0
                            then .str (Utils.bufferToHexBytes (Utils.utf8Encode msg))
                            else .str msg)])]) := by
  constructor
  · intro hashFn st p w msg hready hm hsp
    obtain ⟨hiid, hnext, hcb, hwr, hsess, hmeth, hpar, hpt⟩ := registerReq_shape st w p
    have hsp' : Utils.handleSignParams (registerReq st p w).fst.address
        (registerReq st p w).snd.snd.params = .ok (.str msg) := by
      rw [hsess.1, hpar]
      exact hsp
    have hpair := eth_sign_pair (registerReq st p w).fst (registerReq st p w).snd.snd
      msg hsp'
    have hd : V1.dispatch hashFn (registerReq st p w).fst (registerReq st p w).snd.fst
        (registerReq st p w).snd.snd w
        = V1.post (registerReq st p w).fst (registerReq st p w).snd.fst
            (.ok (if Utils.isUtf8 (Utils.messageToBufferStr msg)
                  then "signPersonalMessage" else "signMessage",
                  .obj [("data", .str (Utils.bufferToHexBytes (Utils.messageToBufferStr msg)))])) := by
      unfold V1.dispatch
      rw [hmeth, hm, ← hpair]
      rfl
    rw [_request_posts hashFn st p w _ _ hready hd]
  · intro hashFn st p w msg hready hm hsp
    obtain ⟨hiid, hnext, hcb, hwr, hsess, hmeth, hpar, hpt⟩ := registerReq_shape st w p
    have hsp' : Utils.handleSignParams (registerReq st p w).fst.address
        (registerReq st p w).snd.snd.params = .ok (.str msg) := by
      rw [hsess.1, hpar]
      exact hsp
    have hpair := personal_sign_pair (registerReq st p w).fst (registerReq st p w).snd.snd
      msg hsp'
    have hd : V1.dispatch hashFn (registerReq st p w).fst (registerReq st p w).snd.fst
        (registerReq st p w).snd.snd w
        = V1.post (registerReq st p w).fst (registerReq st p w).snd.fst
            (.ok ("signPersonalMessage",
                  .obj [("data", if (Utils.messageToBufferStr msg).length = 0
                                 then .str (Utils.bufferToHexBytes (Utils.utf8Encode msg))
                                 else .str msg)])) := by
      unfold V1.dispatch
      rw [hmeth, hm, ← hpair]
      rfl
    rw [_request_posts hashFn st p w _ _ hready hd]

/-- C7 witness: `eth_sign` of the binary payload `0xdeadbeef` goes to
`signMessage` (its bytes are not valid UTF-8) with the hex data, and
`personal_sign` of the empty-buffer message `"0x"` goes to
`signPersonalMessage` with the hex re-encoding `"0x3078"`. -/
theorem C7_witness :
    (V1._request hfX (V1.mkProvider cfgReady)
        (mkPayload .undefined "eth_sign" (.arr [.str "0xAbC", .str "0xdeadbeef"]))
        (.bool true)).snd
      = [Event.hostMsg "signMessage" 1 (.obj [("data", .str "0xdeadbeef")])] ∧
    (V1._request hfX (V1.mkProvider cfgReady)
        (mkPayload .undefined "personal_sign" (.arr [.str "0x", .str "0xAbC"]))
        (.bool true)).snd
      = [Event.hostMsg "signPersonalMessage" 1 (.obj [("data", .str "0x3078")])] := by
  constructor
  · have h := C7_signing_routing.1 hfX (V1.mkProvider cfgReady)
      (mkPayload .undefined "eth_sign" (.arr [.str "0xAbC", .str "0xdeadbeef"]))
      (.bool true) "0xdeadbeef" rfl rfl rfl
    exact h
  · have h := C7_signing_routing.2 hfX (V1.mkProvider cfgReady)
      (mkPayload .undefined "personal_sign" (.arr [.str "0x", .str "0xAbC"]))
      (.bool true) "0x" rfl rfl rfl
    exact h

/-- C8 counterexample: the two variants are not behaviorally
equivalent.  The same `wallet_switchEthereumChain` request in the same
ready session state is posted to the Host Bridge by the
`src/src/index.js` variant but falls through to the Upstream RPC client
in the `src/unnamed/part_000` variant (whose method table lacks the
case), so the Host-Bridge traffic differs. -/
theorem C8_counterexample :
    hasHostMsg (V1._request hfX (V1.mkProvider cfgReady)
        (mkPayload (.num 7) "wallet_switchEthereumChain"
          (.arr [.obj [("chainId", .str "0x1")]])) (.bool true)).snd = true ∧
    hasHostMsg (V0._request (V0.mkProvider cfgReady)
        (mkPayload (.num 7) "wallet_switchEthereumChain"
          (.arr [.obj [("chainId", .str "0x1")]])) (.bool true)).snd = false ∧
    (V0._request (V0.mkProvider cfgReady)
        (mkPayload (.num 7) "wallet_switchEthereumChain"
          (.arr [.obj [("chainId", .str "0x1")]])) (.bool true)).snd
      = [Event.rpcCall "wallet_switchEthereumChain" 1
          (.arr [.obj [("chainId", .str "0x1")]]) (.bool true)] := by
  exact ⟨rfl, rfl, rfl⟩

theorem isEnvelope_agree (r : JValue) (h : r ≠ .null) :
    V0.isEnvelope r = .ok (V1.isEnvelope r) := by
  cases r with
  | null => exact absurd rfl h
  | undefined => rfl
  | bool b => rfl
  | num n => rfl
  | str s => rfl
  | arr xs =>
    simp [V0.isEnvelope, V1.isEnvelope, typeofObject]
  | obj fs =>
    simp [V0.isEnvelope, V1.isEnvelope, typeofObject]

theorem sendResponse_agree (st : PState) (id : Nat) (r : JValue)
    (h : V0.isEnvelope r = .ok (V1.isEnvelope r)) :
    V0.sendResponse st id r = .ok (V1.sendResponse st id r) := by
  unfold V0.sendResponse V1.sendResponse
  rw [h]
  dsimp only [Bind.bind, Except.bind, V1.mkReply]
  cases hc : mget (tryPopId st id).fst.callbacks id <;> simp only [hc]

/-- C8 (amended): the variants agree on the immediate-local methods —
for `eth_accounts`, `eth_coinbase`, `net_version` and `eth_chainId` (the
latter provided the stored chain id is not `null`, where V0's missing
null guard would throw), `_request` produces identical states and
events in both variants.  They are not equivalent elsewhere
(`C8_counterexample`): V1 additionally host-bridges
`wallet_switchEthereumChain`, `wallet_getPermissions`,
`wallet_requestPermissions` and `eth_signTypedData_v4`, supports a proxy
mode and a five-action pre-ready allow-list, guards `sendResponse`
against `null`, and uses different rejection text. -/
theorem C8_variants_agree_on_local :
    ∀ hashFn st p w,
      (p.method = "eth_accounts" ∨ p.method = "eth_coinbase" ∨
       p.method = "net_version" ∨ p.method = "eth_chainId") →
      st.chainId ≠ .null →
      V1._request hashFn st p w = V0._request st p w := by
  intro hashFn st p w hm hci
  obtain ⟨hiid, hnext, hcb, hwr, hsess, hmeth, hpar, hpt⟩ := registerReq_shape st w p
  rcases hm with h | h | h | h
  all_goals
    unfold V1._request V0._request
  · have hd1 := V1.dispatch_accounts hashFn (registerReq st p w).fst
      (registerReq st p w).snd.fst (registerReq st p w).snd.snd w (hmeth.trans h)
    have hval : eth_accounts (registerReq st p w).fst ≠ .null := by
      unfold eth_accounts
      split <;> exact fun hx => JValue.noConfusion hx
    have hd0 : V0.dispatch (registerReq st p w).fst (registerReq st p w).snd.fst
        (registerReq st p w).snd.snd w
        = V0.sendResponse (registerReq st p w).fst (registerReq st p w).snd.fst
            (eth_accounts (registerReq st p w).fst) := by
      unfold V0.dispatch
      rw [hmeth, h]
      rfl
    dsimp only
    rw [hd1, hd0, sendResponse_agree _ _ _ (isEnvelope_agree _ hval)]
  · have hd1 := V1.dispatch_coinbase hashFn (registerReq st p w).fst
      (registerReq st p w).snd.fst (registerReq st p w).snd.snd w (hmeth.trans h)
    have hval : eth_coinbase (registerReq st p w).fst ≠ .null := by
      exact fun hx => JValue.noConfusion hx
    have hd0 : V0.dispatch (registerReq st p w).fst (registerReq st p w).snd.fst
        (registerReq st p w).snd.snd w
        = V0.sendResponse (registerReq st p w).fst (registerReq st p w).snd.fst
            (eth_coinbase (registerReq st p w).fst) := by
      unfold V0.dispatch
      rw [hmeth, h]
      rfl
    dsimp only
    rw [hd1, hd0, sendResponse_agree _ _ _ (isEnvelope_agree _ hval)]
  · have hd1 := V1.dispatch_netVersion hashFn (registerReq st p w).fst
      (registerReq st p w).snd.fst (registerReq st p w).snd.snd w (hmeth.trans h)
    have hval : net_version (registerReq st p w).fst ≠ .null := by
      exact fun hx => JValue.noConfusion hx
    have hd0 : V0.dispatch (registerReq st p w).fst (registerReq st p w).snd.fst
        (registerReq st p w).snd.snd w
        = V0.sendResponse (registerReq st p w).fst (registerReq st p w).snd.fst
            (net_version (registerReq st p w).fst) := by
      unfold V0.dispatch
      rw [hmeth, h]
      rfl
    dsimp only
    rw [hd1, hd0, sendResponse_agree _ _ _ (isEnvelope_agree _ hval)]
  · have hd1 := V1.dispatch_chainId hashFn (registerReq st p w).fst
      (registerReq st p w).snd.fst (registerReq st p w).snd.snd w (hmeth.trans h)
    have hval : eth_chainId (registerReq st p w).fst ≠ .null := by
      unfold eth_chainId
      rw [hsess.2.2.2.1]
      exact hci
    have hd0 : V0.dispatch (registerReq st p w).fst (registerReq st p w).snd.fst
        (registerReq st p w).snd.snd w
        = V0.sendResponse (registerReq st p w).fst (registerReq st p w).snd.fst
            (eth_chainId (registerReq st p w).fst) := by
      unfold V0.dispatch
      rw [hmeth, h]
      rfl
    dsimp only
    rw [hd1, hd0, sendResponse_agree _ _ _ (isEnvelope_agree _ hval)]

/-- C8 witness: the agreement theorem at a concrete `eth_chainId` call —
both variants produce the identical run. -/
theorem C8_witness :
    V1._request hfX (V1.mkProvider cfgReady)
        (mkPayload .undefined "eth_chainId" .undefined) (.bool true)
      = V0._request (V1.mkProvider cfgReady)
        (mkPayload .undefined "eth_chainId" .undefined) (.bool true) := by
  exact C8_variants_agree_on_local hfX (V1.mkProvider cfgReady)
    (mkPayload .undefined "eth_chainId" .undefined) (.bool true)
    (Or.inr (Or.inr (Or.inr rfl)))
    (fun h => JValue.noConfusion h)

/-- C10 counterexample: `sendAsync` with an array payload does **not**
register the envelope shape.  `Array.prototype.map` passes the element
index as `_request`'s `wrapResult`, so the first element is registered
with `0` — falsy — and its caller receives the bare result, not the
`{jsonrpc, id, result}` envelope the claim promises. -/
theorem C10_counterexample :
    mget (V1.sendAsyncArray hfX (V1.mkProvider cfgReady)
        [mkPayload (.num 7) "eth_requestAccounts" (.arr [])]).fst.wrapResults 1
      = some (.num 0) ∧
    JValue.num 0 ≠ JValue.bool true ∧
    (V1.sendResponse (V1.sendAsyncArray hfX (V1.mkProvider cfgReady)
        [mkPayload (.num 7) "eth_requestAccounts" (.arr [])]).fst 1 (.str "0xsig")).snd
      = [Event.settled 1 (.ok (.str "0xsig"))] ∧
    JValue.str "0xsig"
      ≠ JValue.obj [("jsonrpc", .str "2.0"), ("id", .num 7), ("result", .str "0xsig")] := by
  refine ⟨rfl, ?_, rfl, ?_⟩
  · intro h
    cases h
  · intro h
    cases h

/-- C10 (amended): the public entry point fixes the registered result
shape — `request` registers `wrapResult = false` (bare value), `send`
and the single-payload `sendAsync` register the default
`wrapResult = true` (full envelope), and the delivered settlement
follows that shape; but `sendAsync` with an **array** payload passes
each element's index through `Array.prototype.map` as `wrapResult`, so
element 0 is registered with the falsy `0` (bare value) and element 1
with the truthy `1` (envelope). -/
theorem C10_entry_point_shapes :
    (∀ hashFn st p, p.method = "eth_requestAccounts" →
      mget (V1.request hashFn st p).fst.wrapResults (st.nextId + 1)
        = some (.bool false)) ∧
    (∀ hashFn st p, p.method = "eth_requestAccounts" →
      mget (V1.sendAsyncSingle hashFn st p).fst.wrapResults (st.nextId + 1)
        = some (.bool true)) ∧
    (∀ hashFn st p, p.method = "eth_requestAccounts" → jsTruthy p.id = true →
      mget (V1.send hashFn st p).fst.wrapResults (st.nextId + 1)
        = some (.bool true)) ∧
    (∀ hashFn st p q, p.method = "eth_requestAccounts" →
      q.method = "eth_requestAccounts" →
      mget (V1.sendAsyncArray hashFn st [p, q]).fst.wrapResults (st.nextId + 1)
        = some (.num 0) ∧
      mget (V1.sendAsyncArray hashFn st [p, q]).fst.wrapResults (st.nextId + 2)
        = some (.num 1) ∧
      jsTruthy (.num 0) = false ∧ jsTruthy (.num 1) = true) ∧
    (∀ hashFn st p res, p.method = "eth_requestAccounts" →
      (V1.sendResponse (V1.request hashFn st p).fst (st.nextId + 1) res).snd
        = [Event.settled (st.nextId + 1) (.ok res)]) ∧
    (∀ hashFn st p res, p.method = "eth_requestAccounts" → p.id = .undefined →
      mget st.intIds (st.nextId + 1) = none →
      (V1.sendResponse (V1.sendAsyncSingle hashFn st p).fst (st.nextId + 1) res).snd
        = [Event.settled (st.nextId + 1)
            (.ok (V1.mkReply (.num (Int.ofNat (st.nextId + 1))) res))]) := by
  refine ⟨?_, ?_, ?_, ?_, ?_, ?_⟩
  · intro hashFn st p h
    unfold V1.request
    rw [requestAccounts_run hashFn st p (.bool false) h]
    dsimp only
    rw [(registerReq_shape st (.bool false) p).2.2.2.1]
    exact mget_set_self _ _ _
  · intro hashFn st p h
    unfold V1.sendAsyncSingle
    rw [requestAccounts_run hashFn st p (.bool true) h]
    dsimp only
    rw [(registerReq_shape st (.bool true) p).2.2.2.1]
    exact mget_set_self _ _ _
  · intro hashFn st p h hid
    unfold V1.send
    rw [if_pos hid]
    dsimp only
    rw [requestAccounts_run hashFn st
      { id := p.id, jsonrpc := JValue.str "2.0", method := p.method,
        params := jsOr p.params (JValue.arr []), ptype := JValue.undefined }
      (.bool true) h]
    dsimp only
    rw [(registerReq_shape st (.bool true)
      { id := p.id, jsonrpc := JValue.str "2.0", method := p.method,
        params := jsOr p.params (JValue.arr []), ptype := JValue.undefined }).2.2.2.1]
    exact mget_set_self _ _ _
  · intro hashFn st p q hp hq
    have hn12 : st.nextId + 1 ≠ st.nextId + 2 := by omega
    have hn21 : st.nextId + 2 ≠ st.nextId + 1 := by omega
    unfold V1.sendAsyncArray V1.sendAsyncArrayAux
    rw [requestAccounts_run hashFn st p (.num (Int.ofNat 0)) hp]
    dsimp only
    unfold V1.sendAsyncArrayAux
    rw [requestAccounts_run hashFn _ q (.num (Int.ofNat 1)) hq]
    dsimp only
    unfold V1.sendAsyncArrayAux
    dsimp only
    have hwrB : (registerReq (registerReq st p (.num (Int.ofNat 0))).fst q
        (.num (Int.ofNat 1))).fst.wrapResults
        = mset (mset st.wrapResults (st.nextId + 1) (.num (Int.ofNat 0)))
            (st.nextId + 2) (.num (Int.ofNat 1)) := by
      rw [(registerReq_shape _ (.num (Int.ofNat 1)) q).2.2.2.1,
        (registerReq_shape st (.num (Int.ofNat 0)) p).2.2.2.1,
        (registerReq_shape st (.num (Int.ofNat 0)) p).2.1]
    refine ⟨?_, ?_, rfl, rfl⟩
    · rw [hwrB, mget_set_ne _ _ _ _ hn12]
      exact mget_set_self _ _ _
    · rw [hwrB]
      exact mget_set_self _ _ _
  · intro hashFn st p res h
    unfold V1.request
    rw [requestAccounts_run hashFn st p (.bool false) h]
    dsimp only
    obtain ⟨hev, _, _, _⟩ := V1.sendResponse_found
      (registerReq st p (.bool false)).fst (st.nextId + 1) res (st.nextId + 1)
      (by rw [(registerReq_shape st (.bool false) p).2.2.1]; exact mget_set_self _ _ _)
    rw [hev, (registerReq_shape st (.bool false) p).2.2.2.1, mget_set_self]
    rfl
  · intro hashFn st p res h hid hfresh
    unfold V1.sendAsyncSingle
    rw [requestAccounts_run hashFn st p (.bool true) h]
    dsimp only
    obtain ⟨hev, _, _, _⟩ := V1.sendResponse_found
      (registerReq st p (.bool true)).fst (st.nextId + 1) res (st.nextId + 1)
      (by rw [(registerReq_shape st (.bool true) p).2.2.1]; exact mget_set_self _ _ _)
    rw [hev, (registerReq_shape st (.bool true) p).2.2.2.1, mget_set_self,
      registerReq_intIds_undef st (.bool true) p hid, hfresh]
    rfl

/-- C10 witness: the amended theorem at concrete inputs — `request`
registers the bare shape and delivers the raw result, the single-payload
`sendAsync` registers the envelope shape, and an array `sendAsync`
registers the indices `0` and `1`. -/
theorem C10_witness :
    mget (V1.request hfX (V1.mkProvider cfgReady)
        (mkPayload (.num 7) "eth_requestAccounts" (.arr []))).fst.wrapResults 1
      = some (.bool false) ∧
    (V1.sendResponse (V1.request hfX (V1.mkProvider cfgReady)
        (mkPayload (.num 7) "eth_requestAccounts" (.arr []))).fst 1 (.str "0xok")).snd
      = [Event.settled 1 (.ok (.str "0xok"))] ∧
    mget (V1.sendAsyncArray hfX (V1.mkProvider cfgReady)
        [mkPayload (.num 7) "eth_requestAccounts" (.arr []),
         mkPayload (.num 7) "eth_requestAccounts" (.arr [])]).fst.wrapResults 2
      = some (.num 1) := by
  refine ⟨?_, ?_, ?_⟩
  · exact C10_entry_point_shapes.1 hfX (V1.mkProvider cfgReady)
      (mkPayload (.num 7) "eth_requestAccounts" (.arr [])) rfl
  · exact C10_entry_point_shapes.2.2.2.2.1 hfX (V1.mkProvider cfgReady)
      (mkPayload (.num 7) "eth_requestAccounts" (.arr [])) (.str "0xok") rfl
  · exact (C10_entry_point_shapes.2.2.2.1 hfX (V1.mkProvider cfgReady)
      (mkPayload (.num 7) "eth_requestAccounts" (.arr []))
      (mkPayload (.num 7) "eth_requestAccounts" (.arr [])) rfl rfl).2.1
